import Mathlib

/-!
Verification of the 293T split-scheduler core (`lab_293t_scheduler_app.py`)
against its natural-language specification.

Modelling conventions (shallow embedding of the Python source):

* A `pd.Timestamp` is modelled as an `Int`: the number of hours since an
  arbitrary fixed epoch that falls on a Monday at 00:00.  With this choice
  `Timestamp.normalize()` (truncation to midnight) is `24 * (t / 24)`
  (Euclidean division, i.e. floor for the positive divisor 24) and
  `Timestamp.weekday()` (Monday = 0 … Sunday = 6) is `(t / 24) % 7`.
* `timedelta(hours=h)` is the integer `h`; adding it is integer addition.
* A pandas `DataFrame` row produced by the generator is the structure
  `Record`; the `Date` column (an ISO `YYYY-MM-DD` string in Python,
  injective in the calendar day) is modelled by the normalized timestamp
  of the candidate instant, which carries the same information.
* Python `None`-able arguments are `Option`; Python runtime failures
  (the `assert`, the `raise ValueError`, an out-of-range list index,
  `int(None)`) are `Except.error`.  A `while` loop that would not
  terminate (only possible for `interval_hours ≤ 0`, which the GUI
  cannot produce) is modelled by a dedicated `Except.error` branch, so
  that the loop functions are total.
* The Python `dict` `week_people` with lazily created buckets is an
  association list `List (Int × WeekSlots)`; a missing key denotes the
  bucket whose three slots are all `none` (`wp_get`), so the lazy
  `if wk not in week_people` insertion of an all-`None` bucket is a no-op
  in this representation, and `week_people[wk]["slot"] = v` is `wp_set`
  of the bucket with one slot updated.  Key-insertion order is never
  observable through `dict` lookups, which is all the source uses.
* `set(pd.Timestamp(d).normalize() for d in skip_dates)` is kept as the
  mapped list; only membership is ever used, which agrees with the set.
-/

namespace Sched

/-- `pd.Timestamp.normalize()`: truncate a timestamp (hours since a Monday
epoch) to midnight of its calendar day. -/
def normalize (t : Int) : Int := 24 * (t / 24)

/-- `Timestamp.weekday()`: Monday = 0, …, Saturday = 5, Sunday = 6. -/
def pyWeekday (t : Int) : Int := (t / 24) % 7

/-- `is_weekend` from the source: `ts.weekday() >= 5`. -/
def is_weekend (t : Int) : Bool := pyWeekday t ≥ 5

/-- `is_sunday` from the source: `ts.weekday() == 6`. -/
def is_sunday (t : Int) : Bool := pyWeekday t = 6

/-- `is_saturday` from the source: `ts.weekday() == 5`. -/
def is_saturday (t : Int) : Bool := pyWeekday t = 5

/-- `week_start_sunday` from the source: subtract `(weekday + 1) % 7` days
and normalize, giving the Sunday that starts the enclosing Sun–Sat week. -/
def week_start_sunday (t : Int) : Int :=
  normalize (t - 24 * ((pyWeekday t + 1) % 7))

/-- `strftime("%A")` day names indexed by `pyWeekday`. -/
def DAY_NAMES : List String :=
  ["Monday", "Tuesday", "Wednesday", "Thursday", "Friday", "Saturday", "Sunday"]

/-- `current.strftime("%A")`. -/
def dayName (t : Int) : String := DAY_NAMES.getD (pyWeekday t).toNat ""

/-- `PASSAGE_CYCLE = ["P25, Thaw P11"] + [f"P{i}" for i in range(12, 25)]`. -/
def PASSAGE_CYCLE : List String :=
  ["P25, Thaw P11"] ++ (List.range' 12 13).map (fun i => "P" ++ toString i)

/-- `ScheduleParams` from the source (time values in hours since the epoch). -/
structure ScheduleParams where
  group_a : List String
  group_b : List String
  start_date : Int
  end_date : Option Int := none
  num_events : Option Int := none
  start_roles : String × String := ("weekday", "weekend")
  interval_hours : Int := 48
  skip_dates : List Int := []
  start_passage_label : String := "P25, Thaw P11"

/-- One output row of the generated DataFrame. -/
structure Record where
  Passage : String
  Day : String
  Date : Int
  IsWeekend : String
  AssignedGroup : String
  Person : String
deriving DecidableEq

/-- One lazily created bucket of `week_people`: the three per-week slots. -/
structure WeekSlots where
  sunday : Option (String × String) := none
  weekday : Option (String × String) := none
  saturday : Option (String × String) := none
deriving DecidableEq

/-- The three slot kinds of a week (the `if is_sunday / elif is_saturday /
else` classification in the loop body). -/
inductive Slot where
  | sunday
  | saturday
  | weekday
deriving DecidableEq

/-- Which slot a candidate instant falls into. -/
def slot_of (t : Int) : Slot :=
  if is_sunday t then .sunday else if is_saturday t then .saturday else .weekday

/-- Read one slot of a bucket. -/
def slot_lookup (ws : WeekSlots) : Slot → Option (String × String)
  | .sunday => ws.sunday
  | .saturday => ws.saturday
  | .weekday => ws.weekday

/-- Write one slot of a bucket. -/
def slot_store (ws : WeekSlots) (sl : Slot) (v : String × String) : WeekSlots :=
  match sl with
  | .sunday => { ws with sunday := some v }
  | .saturday => { ws with saturday := some v }
  | .weekday => { ws with weekday := some v }

/-- Association-list lookup for the `week_people` dict. -/
def wp_find (wp : List (Int × WeekSlots)) (wk : Int) : Option WeekSlots :=
  match wp with
  | [] => none
  | (k, ws) :: t => if k = wk then some ws else wp_find t wk

/-- The bucket of a week, treating a missing key as the all-`none` bucket
(the source inserts exactly that bucket right before first use). -/
def wp_get (wp : List (Int × WeekSlots)) (wk : Int) : WeekSlots :=
  (wp_find wp wk).getD {}

/-- `week_people[wk] = ws`: replace the bucket at a key, or add the key. -/
def wp_set (wp : List (Int × WeekSlots)) (wk : Int) (ws : WeekSlots) :
    List (Int × WeekSlots) :=
  match wp with
  | [] => [(wk, ws)]
  | (k, b) :: t => if k = wk then (k, ws) :: t else (k, b) :: wp_set t wk ws

/-- The mutable state of one generation run: the loop variables of
`generate_293t_schedule` (`current`, `a_handles_weekday`, `idx_a`, `idx_b`,
the two wrap flags, `passage_idx`, `week_people`, `rows`, `events_left`).
`events_left` is only meaningful in `num_events` mode, mirroring the Python
closure variable that exists only in that branch. -/
structure LoopState where
  current : Int
  a_handles_weekday : Bool
  idx_a : Nat
  idx_b : Nat
  a_wrapped_since_flip : Bool
  b_wrapped_since_flip : Bool
  passage_idx : Nat
  week_people : List (Int × WeekSlots)
  rows : List Record
  events_left : Int
deriving DecidableEq

/-- `next_person` from the source.  `group[idx]` raises `IndexError` when
the index is out of range, modelled by `none`. -/
def next_person (group : List String) (idx : Nat) :
    Option (String × Nat × Bool) :=
  match group.get? idx with
  | none => none
  | some person =>
    let idx' := idx + 1
    if idx' ≥ group.length then some (person, 0, true)
    else some (person, idx', false)

/-- `weekday_group_flag` from the source. -/
def weekday_group_flag (a_weekday_flag : Bool) : String :=
  if a_weekday_flag then "A" else "B"

/-- `weekend_group_flag` from the source. -/
def weekend_group_flag (a_weekday_flag : Bool) : String :=
  if a_weekday_flag then "B" else "A"

/-- `maybe_flip_roles` from the source: if both wrap flags are set, invert
`a_handles_weekday` and clear both flags. -/
def maybe_flip_roles (s : LoopState) : LoopState :=
  if s.a_wrapped_since_flip && s.b_wrapped_since_flip then
    { s with
      a_handles_weekday := !s.a_handles_weekday
      a_wrapped_since_flip := false
      b_wrapped_since_flip := false }
  else s

/-- `consume_from` from the source: draw the next person from the queue
named by `group_flag`, record a wrap in the matching wrap flag, and run
`maybe_flip_roles` after a wrap. -/
def consume_from (p : ScheduleParams) (group_flag : String) (s : LoopState) :
    Option (String × String × LoopState) :=
  if group_flag = "A" then
    match next_person p.group_a s.idx_a with
    | none => none
    | some (person, idx', wrapped) =>
      let s1 := { s with idx_a := idx' }
      let s2 := if wrapped then
          maybe_flip_roles { s1 with a_wrapped_since_flip := true }
        else s1
      some (person, "Group A", s2)
  else
    match next_person p.group_b s.idx_b with
    | none => none
    | some (person, idx', wrapped) =>
      let s1 := { s with idx_b := idx' }
      let s2 := if wrapped then
          maybe_flip_roles { s1 with b_wrapped_since_flip := true }
        else s1
      some (person, "Group B", s2)

/-- The "Assign buckets" block of the loop body: classify `current` into a
slot of its Sun-started week, resolve that slot from the cache or by
consuming from the owning group (storing the result in the cache), and
return the `(person, gname)` pair together with the updated state. -/
def resolve_slot (p : ScheduleParams) (s : LoopState) :
    Option (String × String × LoopState) :=
  let wk := week_start_sunday s.current
  let sl := slot_of s.current
  match slot_lookup (wp_get s.week_people wk) sl with
  | some pg => some (pg.1, pg.2, s)
  | none =>
    let grp_flag :=
      match sl with
      | .weekday => weekday_group_flag s.a_handles_weekday
      | _ => weekend_group_flag s.a_handles_weekday
    match consume_from p grp_flag s with
    | none => none
    | some (person, gname, s1) =>
      some (person, gname,
        { s1 with
          week_people := wp_set s1.week_people wk
            (slot_store (wp_get s1.week_people wk) sl (person, gname)) })

/-- One iteration of the `while` loop body (entered with the loop condition
true): the skip-date check, slot resolution, passage consumption, the row
append, the conditional `events_left` decrement, and the cadence advance. -/
def runStep (p : ScheduleParams) (skipSet : List Int) (s : LoopState) :
    Except String LoopState :=
  if s.current ∈ skipSet then
    .ok { s with current := s.current + p.interval_hours }
  else
    match resolve_slot p s with
    | none => .error "IndexError: list index out of range"
    | some (person, gname, s1) =>
      match PASSAGE_CYCLE.get? s1.passage_idx with
      | none => .error "IndexError: list index out of range"
      | some passage =>
        let s2 := { s1 with
          passage_idx := (s1.passage_idx + 1) % PASSAGE_CYCLE.length }
        let row : Record := {
          Passage := passage
          Day := dayName s.current
          Date := normalize s.current
          IsWeekend := if is_weekend s.current then "Weekend" else "Weekday"
          AssignedGroup := gname
          Person := person }
        let s3 := { s2 with rows := s2.rows ++ [row] }
        let s4 := if p.end_date = none then
            { s3 with events_left := s3.events_left - 1 }
          else s3
        .ok { s4 with current := s4.current + p.interval_hours }

/-- `maybe_flip_roles` touches only the role flag and the two wrap flags. -/
theorem maybe_flip_roles_frame (s : LoopState) :
    (maybe_flip_roles s).current = s.current ∧
    (maybe_flip_roles s).idx_a = s.idx_a ∧
    (maybe_flip_roles s).idx_b = s.idx_b ∧
    (maybe_flip_roles s).passage_idx = s.passage_idx ∧
    (maybe_flip_roles s).week_people = s.week_people ∧
    (maybe_flip_roles s).rows = s.rows ∧
    (maybe_flip_roles s).events_left = s.events_left := by
  unfold maybe_flip_roles
  split <;> exact ⟨rfl, rfl, rfl, rfl, rfl, rfl, rfl⟩

/-- `consume_from` touches only the queue cursors, the wrap flags and the
role flag. -/
theorem consume_from_frame (p : ScheduleParams) (flag : String)
    (s : LoopState) (person gname : String) (s' : LoopState)
    (h : consume_from p flag s = some (person, gname, s')) :
    s'.current = s.current ∧ s'.passage_idx = s.passage_idx ∧
    s'.week_people = s.week_people ∧ s'.rows = s.rows ∧
    s'.events_left = s.events_left := by
  unfold consume_from at h
  split at h <;>
  · split at h
    · cases h
    · rename_i person0 idx0 wrapped heq
      split at h
      · cases h
        obtain ⟨h1, _, _, h4, h5, h6, h7⟩ := maybe_flip_roles_frame _
        exact ⟨h1, h4, h5, h6, h7⟩
      · cases h
        exact ⟨rfl, rfl, rfl, rfl, rfl⟩

/-- `resolve_slot` touches neither `current` nor the passage cursor nor the
rows nor the event counter. -/
theorem resolve_slot_frame (p : ScheduleParams) (s : LoopState)
    (person gname : String) (s1 : LoopState)
    (h : resolve_slot p s = some (person, gname, s1)) :
    s1.current = s.current ∧ s1.passage_idx = s.passage_idx ∧
    s1.rows = s.rows ∧ s1.events_left = s.events_left := by
  unfold resolve_slot at h
  dsimp only at h
  split at h
  · cases h; exact ⟨rfl, rfl, rfl, rfl⟩
  · split at h
    · cases h
    · rename_i per0 g0 s0 heq
      cases h
      obtain ⟨h1, h2, _, h4, h5⟩ := consume_from_frame p _ s person gname s0 heq
      exact ⟨h1, h2, h4, h5⟩

/-- Inversion principle for one successful loop iteration: it is either a
skip step (only `current` advances) or an emit step built from a successful
slot resolution and passage lookup. -/
theorem runStep_ok_inv (p : ScheduleParams) (skipSet : List Int)
    (s s' : LoopState) (h : runStep p skipSet s = .ok s') :
    (s.current ∈ skipSet ∧
      s' = { s with current := s.current + p.interval_hours }) ∨
    (s.current ∉ skipSet ∧ ∃ person gname s1 passage,
      resolve_slot p s = some (person, gname, s1) ∧
      PASSAGE_CYCLE.get? s1.passage_idx = some passage ∧
      s' = { s1 with
        passage_idx := (s1.passage_idx + 1) % PASSAGE_CYCLE.length
        rows := s1.rows ++ [{
          Passage := passage
          Day := dayName s.current
          Date := normalize s.current
          IsWeekend := if is_weekend s.current then "Weekend" else "Weekday"
          AssignedGroup := gname
          Person := person }]
        events_left := if p.end_date = none then s1.events_left - 1
          else s1.events_left
        current := s1.current + p.interval_hours }) := by
  unfold runStep at h
  split at h
  · left; cases h; exact ⟨by assumption, rfl⟩
  · right
    refine ⟨by assumption, ?_⟩
    split at h
    · cases h
    · rename_i per0 g0 s1 hres
      split at h
      · cases h
      · rename_i passage hpass
        dsimp only at h
        refine ⟨per0, g0, s1, passage, hres, hpass, ?_⟩
        cases h
        by_cases hn : p.end_date = none <;> simp [hn]

theorem runStep_current (p : ScheduleParams) (skipSet : List Int)
    (s s' : LoopState) (h : runStep p skipSet s = .ok s') :
    s'.current = s.current + p.interval_hours := by
  rcases runStep_ok_inv p skipSet s s' h with ⟨_, rfl⟩ |
    ⟨_, per, g, s1, pass, hres, hpass, rfl⟩
  · rfl
  · obtain ⟨h1, _, _, _⟩ := resolve_slot_frame p s per g s1 hres
    simpa using h1

theorem runStep_events (p : ScheduleParams) (skipSet : List Int)
    (s s' : LoopState) (hnone : p.end_date = none)
    (h : runStep p skipSet s = .ok s') :
    (s.current ∈ skipSet ∧ s'.events_left = s.events_left) ∨
      (s.current ∉ skipSet ∧ s'.events_left = s.events_left - 1) := by
  rcases runStep_ok_inv p skipSet s s' h with ⟨hm, rfl⟩ |
    ⟨hm, per, g, s1, pass, hres, hpass, rfl⟩
  · exact Or.inl ⟨hm, rfl⟩
  · refine Or.inr ⟨hm, ?_⟩
    obtain ⟨_, _, _, h4⟩ := resolve_slot_frame p s per g s1 hres
    simp [hnone, h4]

/-- Number of elements of `skipSet` at or after `c`; used only as a
termination measure for the `num_events`-bounded loop. -/
def countSkipGE (skipSet : List Int) (c : Int) : Nat :=
  (skipSet.filter (fun d => decide (c ≤ d))).length

theorem filter_length_mono {α : Type} (l : List α) (p q : α → Bool)
    (h : ∀ x ∈ l, q x = true → p x = true) :
    (l.filter q).length ≤ (l.filter p).length := by
  induction l with
  | nil => simp
  | cons a t ih =>
    have ht : ∀ x ∈ t, q x = true → p x = true := by
      intro x hx; exact h x (List.mem_cons_of_mem a hx)
    by_cases hq : q a = true
    · have hp : p a = true := h a (List.mem_cons_self a t) hq
      simp only [List.filter_cons, hq, hp, ite_true, List.length_cons]
      exact Nat.succ_le_succ (ih ht)
    · have hq' : q a = false := by simpa using hq
      simp only [List.filter_cons, hq']
      by_cases hp : p a = true
      · simp only [hp, if_pos rfl, ite_true, List.length_cons]
        calc (t.filter q).length ≤ (t.filter p).length := ih ht
        _ ≤ (t.filter p).length + 1 := Nat.le_succ _
      · have hp' : p a = false := by simpa using hp
        simp only [hp', Bool.false_eq_true, if_false]
        exact ih ht

theorem filter_length_strict {α : Type} [DecidableEq α] (l : List α)
    (p q : α → Bool) (h : ∀ x ∈ l, q x = true → p x = true)
    (x0 : α) (hx0 : x0 ∈ l) (hpx : p x0 = true) (hqx : q x0 = false) :
    (l.filter q).length < (l.filter p).length := by
  induction l with
  | nil => cases hx0
  | cons a t ih =>
    have ht : ∀ x ∈ t, q x = true → p x = true := by
      intro x hx; exact h x (List.mem_cons_of_mem a hx)
    by_cases hax : a = x0
    · subst hax
      simp only [List.filter_cons, hqx, hpx, Bool.false_eq_true, if_false,
        ite_true, List.length_cons]
      exact Nat.lt_succ_of_le (filter_length_mono t p q ht)
    · have hx0t : x0 ∈ t := by
        cases hx0 with
        | head => exact absurd rfl hax
        | tail _ h => exact h
      by_cases hq : q a = true
      · have hp : p a = true := h a (List.mem_cons_self a t) hq
        simp only [List.filter_cons, hq, hp, ite_true, List.length_cons]
        exact Nat.succ_lt_succ (ih ht hx0t)
      · have hq' : q a = false := by simpa using hq
        simp only [List.filter_cons, hq']
        by_cases hp : p a = true
        · simp only [hp, ite_true, Bool.false_eq_true, if_false,
            List.length_cons]
          exact Nat.lt_succ_of_lt (ih ht hx0t)
        · have hp' : p a = false := by simpa using hp
          simp only [hp', Bool.false_eq_true, if_false]
          exact ih ht hx0t

theorem countSkipGE_lt (skipSet : List Int) (c c' : Int) (hcc : c < c')
    (hmem : c ∈ skipSet) : countSkipGE skipSet c' < countSkipGE skipSet c := by
  unfold countSkipGE
  refine filter_length_strict skipSet _ _ ?_ c hmem (by simp) (by simp; omega)
  intro x _ hx
  simp only [decide_eq_true_eq] at hx ⊢
  omega

theorem countSkipGE_le (skipSet : List Int) (c c' : Int) (hcc : c ≤ c') :
    countSkipGE skipSet c' ≤ countSkipGE skipSet c := by
  unfold countSkipGE
  refine filter_length_mono skipSet _ _ ?_
  intro x _ hx
  simp only [decide_eq_true_eq] at hx ⊢
  omega

/-- The `while continue_loop(current)` loop in the `end_date` mode:
`continue_loop(cur) = cur <= end`.  The `interval_hours ≤ 0` branch models
a Python run that would never terminate. -/
def date_loop (p : ScheduleParams) (skipSet : List Int) (endT : Int)
    (s : LoopState) : Except String (List Record) :=
  if s.current ≤ endT then
    if hpos : 0 < p.interval_hours then
      match hstep : runStep p skipSet s with
      | .error e => .error e
      | .ok s' => date_loop p skipSet endT s'
    else .error "nontermination: interval_hours is not positive"
  else .ok s.rows
termination_by (endT + 1 - s.current).toNat
decreasing_by
  have := runStep_current p skipSet s s' hstep
  omega

/-- The `while continue_loop(current)` loop in the `num_events` mode:
`continue_loop(cur) = events_left > 0`.  The hypothesis `hnone` records
that this mode is only entered when `end_date is None` (needed because the
`events_left` decrement in the loop body is guarded by that test). -/
def event_loop (p : ScheduleParams) (skipSet : List Int)
    (hnone : p.end_date = none) (s : LoopState) : Except String (List Record) :=
  if 0 < s.events_left then
    if hpos : 0 < p.interval_hours then
      match hstep : runStep p skipSet s with
      | .error e => .error e
      | .ok s' => event_loop p skipSet hnone s'
    else .error "nontermination: interval_hours is not positive"
  else .ok s.rows
termination_by s.events_left.toNat + countSkipGE skipSet s.current
decreasing_by
  have hcur := runStep_current p skipSet s s' hstep
  have hev := runStep_events p skipSet s s' hnone hstep
  rcases hev with ⟨hmem, hev⟩ | ⟨hmem, hev⟩
  · have h1 : countSkipGE skipSet s'.current < countSkipGE skipSet s.current := by
      rw [hcur]
      exact countSkipGE_lt skipSet s.current (s.current + p.interval_hours)
        (by omega) hmem
    omega
  · have h1 : countSkipGE skipSet s'.current ≤ countSkipGE skipSet s.current := by
      rw [hcur]
      exact countSkipGE_le skipSet s.current (s.current + p.interval_hours)
        (by omega)
    omega

/-- The normalized skip set `set(pd.Timestamp(d).normalize() for d in
(params.skip_dates or []))`. -/
def skip_normalized (p : ScheduleParams) : List Int :=
  p.skip_dates.map normalize

/-- The loop state set up by `generate_293t_schedule` before the loop. -/
def init_state (p : ScheduleParams) : LoopState where
  current := normalize p.start_date
  a_handles_weekday := decide (p.start_roles.1 = "weekday")
  idx_a := 0
  idx_b := 0
  a_wrapped_since_flip := false
  b_wrapped_since_flip := false
  passage_idx := PASSAGE_CYCLE.indexOf p.start_passage_label
  week_people := []
  rows := []
  events_left := 0

/-- `generate_293t_schedule` from the source: validation (the assertion and
the `ValueError`s, in source order), state initialization, then the
cadence-driven loop in the mode selected by `end_date`/`num_events`. -/
def generate_293t_schedule (p : ScheduleParams) :
    Except String (List Record) :=
  if (p.end_date = none) ↔ (p.num_events = none) then
    .error "AssertionError: Provide either end_date or num_events, not both."
  else if p.group_a = [] then
    .error "Group A is empty."
  else if p.group_b = [] then
    .error "Group B is empty."
  else if ¬ (p.start_roles.1 = "weekday" ∨ p.start_roles.1 = "weekend") ∨
      ¬ (p.start_roles.2 = "weekday" ∨ p.start_roles.2 = "weekend") then
    .error "start_roles must be (weekday|weekend, weekday|weekend)"
  else if p.start_roles.1 = p.start_roles.2 then
    .error "Groups cannot start with the same role."
  else if p.start_passage_label ∉ PASSAGE_CYCLE then
    .error ("Unknown start passage " ++ p.start_passage_label)
  else
    match hend : p.end_date with
    | some ed => date_loop p (skip_normalized p) (normalize ed) (init_state p)
    | none =>
      match p.num_events with
      | some n =>
        event_loop p (skip_normalized p) hend
          { init_state p with events_left := n }
      | none => .error "TypeError: int() argument must not be None"

theorem normalize_mul_ediv (t : Int) : normalize t / 24 = t / 24 := by
  unfold normalize
  exact Int.mul_ediv_cancel_left (t / 24) (by norm_num)

theorem pyWeekday_normalize (t : Int) : pyWeekday (normalize t) = pyWeekday t := by
  unfold pyWeekday
  rw [normalize_mul_ediv]

theorem normalize_idem (t : Int) : normalize (normalize t) = normalize t := by
  rw [normalize, normalize_mul_ediv, normalize]

theorem normalize_of_dvd (t : Int) (h : (24 : Int) ∣ t) : normalize t = t := by
  obtain ⟨m, rfl⟩ := h
  unfold normalize
  rw [Int.mul_ediv_cancel_left m (by norm_num)]

theorem normalize_sub_day_mul (t k : Int) :
    normalize (t - 24 * k) = normalize t - 24 * k := by
  unfold normalize
  have : t - 24 * k = t + (-k) * 24 := by ring
  rw [this, Int.add_mul_ediv_right t (-k) (by norm_num)]
  ring

theorem is_weekend_normalize (t : Int) :
    is_weekend (normalize t) = is_weekend t := by
  unfold is_weekend
  rw [pyWeekday_normalize]

theorem slot_of_normalize (t : Int) : slot_of (normalize t) = slot_of t := by
  unfold slot_of is_sunday is_saturday
  rw [pyWeekday_normalize]

theorem week_start_sunday_normalize (t : Int) :
    week_start_sunday (normalize t) = week_start_sunday t := by
  unfold week_start_sunday
  rw [pyWeekday_normalize, normalize_sub_day_mul, normalize_sub_day_mul,
    normalize_idem]

/-- Invariant propagation along the `end_date`-bounded loop: any property
preserved by successful iterations entered with the loop condition true
holds at the exit state, whose rows are the returned rows. -/
theorem date_loop_inv (p : ScheduleParams) (skipSet : List Int) (endT : Int)
    (Inv : LoopState → Prop)
    (hstep : ∀ s s', Inv s → s.current ≤ endT → 0 < p.interval_hours →
      runStep p skipSet s = .ok s' → Inv s')
    (s : LoopState) (rows : List Record) (hinv : Inv s)
    (hrun : date_loop p skipSet endT s = .ok rows) :
    ∃ sf, Inv sf ∧ sf.rows = rows ∧ ¬ sf.current ≤ endT := by
  revert hinv hrun
  induction s using date_loop.induct p skipSet endT with
  | case1 s hle hpos e hstep0 =>
    intro hinv hrun
    rw [date_loop, if_pos hle, dif_pos hpos, hstep0] at hrun
    cases hrun
  | case2 s hle hpos s' hstep0 ih =>
    intro hinv hrun
    rw [date_loop, if_pos hle, dif_pos hpos, hstep0] at hrun
    exact ih (hstep s s' hinv hle hpos hstep0) hrun
  | case3 s hle hpos =>
    intro hinv hrun
    rw [date_loop, if_pos hle, dif_neg hpos] at hrun
    cases hrun
  | case4 s hle =>
    intro hinv hrun
    rw [date_loop, if_neg hle] at hrun
    cases hrun
    exact ⟨s, hinv, rfl, hle⟩

/-- Invariant propagation along the `num_events`-bounded loop. -/
theorem event_loop_inv (p : ScheduleParams) (skipSet : List Int)
    (hnone : p.end_date = none) (Inv : LoopState → Prop)
    (hstep : ∀ s s', Inv s → 0 < s.events_left → 0 < p.interval_hours →
      runStep p skipSet s = .ok s' → Inv s')
    (s : LoopState) (rows : List Record) (hinv : Inv s)
    (hrun : event_loop p skipSet hnone s = .ok rows) :
    ∃ sf, Inv sf ∧ sf.rows = rows ∧ ¬ 0 < sf.events_left := by
  revert hinv hrun
  induction s using event_loop.induct p skipSet hnone with
  | case1 s hle hpos e hstep0 =>
    intro hinv hrun
    rw [event_loop, if_pos hle, dif_pos hpos, hstep0] at hrun
    cases hrun
  | case2 s hle hpos s' hstep0 ih =>
    intro hinv hrun
    rw [event_loop, if_pos hle, dif_pos hpos, hstep0] at hrun
    exact ih (hstep s s' hinv hle hpos hstep0) hrun
  | case3 s hle hpos =>
    intro hinv hrun
    rw [event_loop, if_pos hle, dif_neg hpos] at hrun
    cases hrun
  | case4 s hle =>
    intro hinv hrun
    rw [event_loop, if_neg hle] at hrun
    cases hrun
    exact ⟨s, hinv, rfl, hle⟩

/-- Totality of the `end_date`-bounded loop: if an invariant guarantees
that every entered iteration succeeds, the loop returns a result. -/
theorem date_loop_total (p : ScheduleParams) (skipSet : List Int)
    (endT : Int) (Inv : LoopState → Prop)
    (hstep : ∀ s, Inv s → s.current ≤ endT → 0 < p.interval_hours →
      ∃ s', runStep p skipSet s = .ok s' ∧ Inv s')
    (hpos : 0 < p.interval_hours) (s : LoopState) (hinv : Inv s) :
    ∃ rows, date_loop p skipSet endT s = .ok rows := by
  revert hinv
  induction s using date_loop.induct p skipSet endT with
  | case1 s hle hpos0 e hstep0 =>
    intro hinv
    obtain ⟨s'', hok, _⟩ := hstep s hinv hle hpos0
    rw [hstep0] at hok
    cases hok
  | case2 s hle hpos0 s' hstep0 ih =>
    intro hinv
    rw [date_loop, if_pos hle, dif_pos hpos0, hstep0]
    obtain ⟨s'', hok, hinv'⟩ := hstep s hinv hle hpos0
    rw [hstep0] at hok
    cases hok
    exact ih hinv'
  | case3 s hle hpos0 =>
    intro hinv
    exact absurd hpos hpos0
  | case4 s hle =>
    intro hinv
    rw [date_loop, if_neg hle]
    exact ⟨s.rows, rfl⟩

/-- Totality of the `num_events`-bounded loop. -/
theorem event_loop_total (p : ScheduleParams) (skipSet : List Int)
    (hnone : p.end_date = none) (Inv : LoopState → Prop)
    (hstep : ∀ s, Inv s → 0 < s.events_left → 0 < p.interval_hours →
      ∃ s', runStep p skipSet s = .ok s' ∧ Inv s')
    (hpos : 0 < p.interval_hours) (s : LoopState) (hinv : Inv s) :
    ∃ rows, event_loop p skipSet hnone s = .ok rows := by
  revert hinv
  induction s using event_loop.induct p skipSet hnone with
  | case1 s hle hpos0 e hstep0 =>
    intro hinv
    obtain ⟨s'', hok, _⟩ := hstep s hinv hle hpos0
    rw [hstep0] at hok
    cases hok
  | case2 s hle hpos0 s' hstep0 ih =>
    intro hinv
    rw [event_loop, if_pos hle, dif_pos hpos0, hstep0]
    obtain ⟨s'', hok, hinv'⟩ := hstep s hinv hle hpos0
    rw [hstep0] at hok
    cases hok
    exact ih hinv'
  | case3 s hle hpos0 =>
    intro hinv
    exact absurd hpos hpos0
  | case4 s hle =>
    intro hinv
    rw [event_loop, if_neg hle]
    exact ⟨s.rows, rfl⟩

/-- Inversion of `generate_293t_schedule`: a successful run implies every
validation passed and the returned rows come from the loop of the selected
mode started at `init_state`. -/
theorem generate_ok_elim (p : ScheduleParams) (rows : List Record)
    (h : generate_293t_schedule p = .ok rows) :
    ¬((p.end_date = none) ↔ (p.num_events = none)) ∧
    p.group_a ≠ [] ∧ p.group_b ≠ [] ∧
    (p.start_roles.1 = "weekday" ∨ p.start_roles.1 = "weekend") ∧
    (p.start_roles.2 = "weekday" ∨ p.start_roles.2 = "weekend") ∧
    p.start_roles.1 ≠ p.start_roles.2 ∧
    p.start_passage_label ∈ PASSAGE_CYCLE ∧
    ((∃ ed, p.end_date = some ed ∧
        date_loop p (skip_normalized p) (normalize ed) (init_state p) =
          .ok rows) ∨
      (∃ hn : p.end_date = none, ∃ n, p.num_events = some n ∧
        event_loop p (skip_normalized p) hn
          { init_state p with events_left := n } = .ok rows)) := by
  unfold generate_293t_schedule at h
  split at h
  · cases h
  · split at h
    · cases h
    · split at h
      · cases h
      · split at h
        · cases h
        · split at h
          · cases h
          · split at h
            · cases h
            · rename_i hxor hga hgb hroles hdup hlbl
              push_neg at hroles
              refine ⟨hxor, hga, hgb, hroles.1, hroles.2, hdup, not_not.mp hlbl,
                ?_⟩
              split at h
              · rename_i ed hend
                exact Or.inl ⟨ed, hend, h⟩
              · rename_i hend
                split at h
                · rename_i n hnum
                  exact Or.inr ⟨hend, n, hnum, h⟩
                · cases h

/-- The person handed out by `next_person` is a member of the queue. -/
theorem next_person_mem (group : List String) (idx : Nat) (person : String)
    (idx' : Nat) (wrapped : Bool)
    (h : next_person group idx = some (person, idx', wrapped)) :
    person ∈ group := by
  unfold next_person at h
  split at h
  · cases h
  · rename_i per1 hget
    dsimp only at h
    split at h <;> · cases h; exact List.get?_mem hget

/-- What `consume_from` returns: the person at the cursor of the selected
queue together with that queue's display name. -/
theorem consume_from_mem (p : ScheduleParams) (flag : String) (s : LoopState)
    (person gname : String) (s' : LoopState)
    (h : consume_from p flag s = some (person, gname, s')) :
    (flag = "A" ∧ gname = "Group A" ∧ person ∈ p.group_a) ∨
      (flag ≠ "A" ∧ gname = "Group B" ∧ person ∈ p.group_b) := by
  unfold consume_from at h
  split at h
  · left
    refine ⟨by assumption, ?_⟩
    split at h
    · cases h
    · rename_i per0 idx0 wrapped heq
      dsimp only at h
      have hmem := next_person_mem _ _ _ _ _ heq
      cases h
      exact ⟨rfl, hmem⟩
  · right
    refine ⟨by assumption, ?_⟩
    split at h
    · cases h
    · rename_i per0 idx0 wrapped heq
      dsimp only at h
      have hmem := next_person_mem _ _ _ _ _ heq
      cases h
      exact ⟨rfl, hmem⟩

/-- Reading back a bucket after `wp_set`. -/
theorem wp_get_set (wp : List (Int × WeekSlots)) (wk : Int) (ws : WeekSlots)
    (wk' : Int) :
    wp_get (wp_set wp wk ws) wk' = if wk' = wk then ws else wp_get wp wk' := by
  induction wp with
  | nil =>
    simp only [wp_set, wp_get, wp_find]
    by_cases h : wk = wk'
    · rw [if_pos h, if_pos h.symm]
      rfl
    · rw [if_neg h, if_neg (fun hc => h hc.symm)]
  | cons kb t ih =>
    obtain ⟨k, b⟩ := kb
    simp only [wp_set]
    by_cases hk : k = wk
    · subst hk
      simp only [if_pos rfl, wp_get, wp_find]
      by_cases h : k = wk'
      · rw [if_pos h, if_pos h.symm]
        rfl
      · rw [if_neg h, if_neg (fun hc => h hc.symm), if_neg h]
    · rw [if_neg hk]
      simp only [wp_get, wp_find]
      by_cases h : k = wk'
      · subst h
        rw [if_pos rfl, if_pos rfl, if_neg (fun hc : k = wk => hk hc)]
      · rw [if_neg h, if_neg h]
        exact ih

/-- Reading back a slot after `slot_store`. -/
theorem slot_lookup_store (ws : WeekSlots) (sl sl' : Slot)
    (v : String × String) :
    slot_lookup (slot_store ws sl v) sl' =
      if sl' = sl then some v else slot_lookup ws sl' := by
  cases sl <;> cases sl' <;> simp [slot_store, slot_lookup]

/-- A successful `resolve_slot` stores (or finds) exactly the returned pair
in the bucket of the current week at the current slot. -/
theorem resolve_slot_caches (p : ScheduleParams) (s : LoopState)
    (person gname : String) (s1 : LoopState)
    (h : resolve_slot p s = some (person, gname, s1)) :
    slot_lookup (wp_get s1.week_people (week_start_sunday s.current))
      (slot_of s.current) = some (person, gname) := by
  unfold resolve_slot at h
  dsimp only at h
  split at h
  · rename_i pg hL
    cases h
    rw [hL]
  · rename_i hL
    split at h
    · cases h
    · rename_i per0 g0 s0 heq
      cases h
      dsimp only
      rw [wp_get_set, if_pos rfl, slot_lookup_store, if_pos rfl]

/-- `resolve_slot` never changes an already-resolved bucket entry. -/
theorem resolve_slot_mono (p : ScheduleParams) (s : LoopState)
    (person gname : String) (s1 : LoopState)
    (h : resolve_slot p s = some (person, gname, s1))
    (wk : Int) (sl : Slot) (v : String × String)
    (hv : slot_lookup (wp_get s.week_people wk) sl = some v) :
    slot_lookup (wp_get s1.week_people wk) sl = some v := by
  unfold resolve_slot at h
  dsimp only at h
  split at h
  · cases h; exact hv
  · rename_i hL
    split at h
    · cases h
    · rename_i per0 g0 s0 heq
      cases h
      obtain ⟨_, _, hwp, _, _⟩ := consume_from_frame p _ s person gname s0 heq
      dsimp only
      rw [hwp, wp_get_set]
      by_cases hwk : wk = week_start_sunday s.current
      · rw [if_pos hwk]
        rw [slot_lookup_store]
        by_cases hsl : sl = slot_of s.current
        · subst hsl
          rw [hwk] at hv
          rw [hv] at hL
          cases hL
        · rw [if_neg hsl, ← hwk]
          exact hv
      · rw [if_neg hwk]
        exact hv

/-- If the current week/slot is already resolved, `resolve_slot` is a pure
cache read: it returns the stored pair and leaves the state untouched. -/
theorem resolve_slot_cached (p : ScheduleParams) (s : LoopState)
    (pr : String × String)
    (hres : slot_lookup (wp_get s.week_people (week_start_sunday s.current))
      (slot_of s.current) = some pr) :
    resolve_slot p s = some (pr.1, pr.2, s) := by
  unfold resolve_slot
  dsimp only
  rw [hres]


/-- A concrete configuration with single-person groups, five events, the
48-hour cadence, starting on a Sunday (hour 144 of the Monday epoch). -/
def singleParams : ScheduleParams where
  group_a := ["A1"]
  group_b := ["B1"]
  start_date := 144
  end_date := none
  num_events := some 5
  start_roles := ("weekday", "weekend")
  interval_hours := 48
  skip_dates := []
  start_passage_label := "P25, Thaw P11"

/-- A concrete date-bounded configuration with one skipped candidate. -/
def dateParams : ScheduleParams where
  group_a := ["A1", "A2"]
  group_b := ["B1", "B2"]
  start_date := 144
  end_date := some 240
  num_events := none
  start_roles := ("weekday", "weekend")
  interval_hours := 48
  skip_dates := [192]
  start_passage_label := "P25, Thaw P11"

/-- A concrete configuration whose cadence (36 hours) is not a multiple of
24, with the day after the start listed as a skip date. -/
def cexParams : ScheduleParams where
  group_a := ["a"]
  group_b := ["b"]
  start_date := 0
  end_date := none
  num_events := some 2
  start_roles := ("weekday", "weekend")
  interval_hours := 36
  skip_dates := [24]
  start_passage_label := "P25, Thaw P11"

/-- Concrete run of the generator, used by witnesses. -/
theorem single_run : generate_293t_schedule singleParams = .ok
    [{ Passage := "P25, Thaw P11", Day := "Sunday", Date := 144, IsWeekend := "Weekend", AssignedGroup := "Group B", Person := "B1" },
      { Passage := "P12", Day := "Tuesday", Date := 192, IsWeekend := "Weekday", AssignedGroup := "Group A", Person := "A1" },
      { Passage := "P13", Day := "Thursday", Date := 240, IsWeekend := "Weekday", AssignedGroup := "Group A", Person := "A1" },
      { Passage := "P14", Day := "Saturday", Date := 288, IsWeekend := "Weekend", AssignedGroup := "Group A", Person := "A1" },
      { Passage := "P15", Day := "Monday", Date := 336, IsWeekend := "Weekday", AssignedGroup := "Group B", Person := "B1" }] := by
  have h0 : generate_293t_schedule singleParams = event_loop singleParams [] rfl
    { current := 144, a_handles_weekday := true, idx_a := 0, idx_b := 0, a_wrapped_since_flip := false, b_wrapped_since_flip := false, passage_idx := 0,
      week_people := [],
      rows := [], events_left := 5 } := rfl
  have h1 : event_loop singleParams [] rfl
    { current := 144, a_handles_weekday := true, idx_a := 0, idx_b := 0, a_wrapped_since_flip := false, b_wrapped_since_flip := false, passage_idx := 0,
      week_people := [],
      rows := [], events_left := 5 } = event_loop singleParams [] rfl
    { current := 192, a_handles_weekday := true, idx_a := 0, idx_b := 0, a_wrapped_since_flip := false, b_wrapped_since_flip := true, passage_idx := 1,
      week_people := [((144 : Int), { sunday := some ("B1", "Group B"), weekday := none, saturday := none })],
      rows := [{ Passage := "P25, Thaw P11", Day := "Sunday", Date := 144, IsWeekend := "Weekend", AssignedGroup := "Group B", Person := "B1" }], events_left := 4 } := by
    rw [event_loop, show runStep singleParams []
        { current := 144, a_handles_weekday := true, idx_a := 0, idx_b := 0, a_wrapped_since_flip := false, b_wrapped_since_flip := false, passage_idx := 0,
          week_people := [],
          rows := [], events_left := 5 } = .ok
        { current := 192, a_handles_weekday := true, idx_a := 0, idx_b := 0, a_wrapped_since_flip := false, b_wrapped_since_flip := true, passage_idx := 1,
          week_people := [((144 : Int), { sunday := some ("B1", "Group B"), weekday := none, saturday := none })],
          rows := [{ Passage := "P25, Thaw P11", Day := "Sunday", Date := 144, IsWeekend := "Weekend", AssignedGroup := "Group B", Person := "B1" }], events_left := 4 } from rfl]
    norm_num [singleParams]
  have h2 : event_loop singleParams [] rfl
    { current := 192, a_handles_weekday := true, idx_a := 0, idx_b := 0, a_wrapped_since_flip := false, b_wrapped_since_flip := true, passage_idx := 1,
      week_people := [((144 : Int), { sunday := some ("B1", "Group B"), weekday := none, saturday := none })],
      rows := [{ Passage := "P25, Thaw P11", Day := "Sunday", Date := 144, IsWeekend := "Weekend", AssignedGroup := "Group B", Person := "B1" }], events_left := 4 } = event_loop singleParams [] rfl
    { current := 240, a_handles_weekday := false, idx_a := 0, idx_b := 0, a_wrapped_since_flip := false, b_wrapped_since_flip := false, passage_idx := 2,
      week_people := [((144 : Int), { sunday := some ("B1", "Group B"), weekday := some ("A1", "Group A"), saturday := none })],
      rows := [{ Passage := "P25, Thaw P11", Day := "Sunday", Date := 144, IsWeekend := "Weekend", AssignedGroup := "Group B", Person := "B1" },
      { Passage := "P12", Day := "Tuesday", Date := 192, IsWeekend := "Weekday", AssignedGroup := "Group A", Person := "A1" }], events_left := 3 } := by
    rw [event_loop, show runStep singleParams []
        { current := 192, a_handles_weekday := true, idx_a := 0, idx_b := 0, a_wrapped_since_flip := false, b_wrapped_since_flip := true, passage_idx := 1,
          week_people := [((144 : Int), { sunday := some ("B1", "Group B"), weekday := none, saturday := none })],
          rows := [{ Passage := "P25, Thaw P11", Day := "Sunday", Date := 144, IsWeekend := "Weekend", AssignedGroup := "Group B", Person := "B1" }], events_left := 4 } = .ok
        { current := 240, a_handles_weekday := false, idx_a := 0, idx_b := 0, a_wrapped_since_flip := false, b_wrapped_since_flip := false, passage_idx := 2,
          week_people := [((144 : Int), { sunday := some ("B1", "Group B"), weekday := some ("A1", "Group A"), saturday := none })],
          rows := [{ Passage := "P25, Thaw P11", Day := "Sunday", Date := 144, IsWeekend := "Weekend", AssignedGroup := "Group B", Person := "B1" },
          { Passage := "P12", Day := "Tuesday", Date := 192, IsWeekend := "Weekday", AssignedGroup := "Group A", Person := "A1" }], events_left := 3 } from rfl]
    norm_num [singleParams]
  have h3 : event_loop singleParams [] rfl
    { current := 240, a_handles_weekday := false, idx_a := 0, idx_b := 0, a_wrapped_since_flip := false, b_wrapped_since_flip := false, passage_idx := 2,
      week_people := [((144 : Int), { sunday := some ("B1", "Group B"), weekday := some ("A1", "Group A"), saturday := none })],
      rows := [{ Passage := "P25, Thaw P11", Day := "Sunday", Date := 144, IsWeekend := "Weekend", AssignedGroup := "Group B", Person := "B1" },
      { Passage := "P12", Day := "Tuesday", Date := 192, IsWeekend := "Weekday", AssignedGroup := "Group A", Person := "A1" }], events_left := 3 } = event_loop singleParams [] rfl
    { current := 288, a_handles_weekday := false, idx_a := 0, idx_b := 0, a_wrapped_since_flip := false, b_wrapped_since_flip := false, passage_idx := 3,
      week_people := [((144 : Int), { sunday := some ("B1", "Group B"), weekday := some ("A1", "Group A"), saturday := none })],
      rows := [{ Passage := "P25, Thaw P11", Day := "Sunday", Date := 144, IsWeekend := "Weekend", AssignedGroup := "Group B", Person := "B1" },
      { Passage := "P12", Day := "Tuesday", Date := 192, IsWeekend := "Weekday", AssignedGroup := "Group A", Person := "A1" },
      { Passage := "P13", Day := "Thursday", Date := 240, IsWeekend := "Weekday", AssignedGroup := "Group A", Person := "A1" }], events_left := 2 } := by
    rw [event_loop, show runStep singleParams []
        { current := 240, a_handles_weekday := false, idx_a := 0, idx_b := 0, a_wrapped_since_flip := false, b_wrapped_since_flip := false, passage_idx := 2,
          week_people := [((144 : Int), { sunday := some ("B1", "Group B"), weekday := some ("A1", "Group A"), saturday := none })],
          rows := [{ Passage := "P25, Thaw P11", Day := "Sunday", Date := 144, IsWeekend := "Weekend", AssignedGroup := "Group B", Person := "B1" },
          { Passage := "P12", Day := "Tuesday", Date := 192, IsWeekend := "Weekday", AssignedGroup := "Group A", Person := "A1" }], events_left := 3 } = .ok
        { current := 288, a_handles_weekday := false, idx_a := 0, idx_b := 0, a_wrapped_since_flip := false, b_wrapped_since_flip := false, passage_idx := 3,
          week_people := [((144 : Int), { sunday := some ("B1", "Group B"), weekday := some ("A1", "Group A"), saturday := none })],
          rows := [{ Passage := "P25, Thaw P11", Day := "Sunday", Date := 144, IsWeekend := "Weekend", AssignedGroup := "Group B", Person := "B1" },
          { Passage := "P12", Day := "Tuesday", Date := 192, IsWeekend := "Weekday", AssignedGroup := "Group A", Person := "A1" },
          { Passage := "P13", Day := "Thursday", Date := 240, IsWeekend := "Weekday", AssignedGroup := "Group A", Person := "A1" }], events_left := 2 } from rfl]
    norm_num [singleParams]
  have h4 : event_loop singleParams [] rfl
    { current := 288, a_handles_weekday := false, idx_a := 0, idx_b := 0, a_wrapped_since_flip := false, b_wrapped_since_flip := false, passage_idx := 3,
      week_people := [((144 : Int), { sunday := some ("B1", "Group B"), weekday := some ("A1", "Group A"), saturday := none })],
      rows := [{ Passage := "P25, Thaw P11", Day := "Sunday", Date := 144, IsWeekend := "Weekend", AssignedGroup := "Group B", Person := "B1" },
      { Passage := "P12", Day := "Tuesday", Date := 192, IsWeekend := "Weekday", AssignedGroup := "Group A", Person := "A1" },
      { Passage := "P13", Day := "Thursday", Date := 240, IsWeekend := "Weekday", AssignedGroup := "Group A", Person := "A1" }], events_left := 2 } = event_loop singleParams [] rfl
    { current := 336, a_handles_weekday := false, idx_a := 0, idx_b := 0, a_wrapped_since_flip := true, b_wrapped_since_flip := false, passage_idx := 4,
      week_people := [((144 : Int), { sunday := some ("B1", "Group B"), weekday := some ("A1", "Group A"), saturday := some ("A1", "Group A") })],
      rows := [{ Passage := "P25, Thaw P11", Day := "Sunday", Date := 144, IsWeekend := "Weekend", AssignedGroup := "Group B", Person := "B1" },
      { Passage := "P12", Day := "Tuesday", Date := 192, IsWeekend := "Weekday", AssignedGroup := "Group A", Person := "A1" },
      { Passage := "P13", Day := "Thursday", Date := 240, IsWeekend := "Weekday", AssignedGroup := "Group A", Person := "A1" },
      { Passage := "P14", Day := "Saturday", Date := 288, IsWeekend := "Weekend", AssignedGroup := "Group A", Person := "A1" }], events_left := 1 } := by
    rw [event_loop, show runStep singleParams []
        { current := 288, a_handles_weekday := false, idx_a := 0, idx_b := 0, a_wrapped_since_flip := false, b_wrapped_since_flip := false, passage_idx := 3,
          week_people := [((144 : Int), { sunday := some ("B1", "Group B"), weekday := some ("A1", "Group A"), saturday := none })],
          rows := [{ Passage := "P25, Thaw P11", Day := "Sunday", Date := 144, IsWeekend := "Weekend", AssignedGroup := "Group B", Person := "B1" },
          { Passage := "P12", Day := "Tuesday", Date := 192, IsWeekend := "Weekday", AssignedGroup := "Group A", Person := "A1" },
          { Passage := "P13", Day := "Thursday", Date := 240, IsWeekend := "Weekday", AssignedGroup := "Group A", Person := "A1" }], events_left := 2 } = .ok
        { current := 336, a_handles_weekday := false, idx_a := 0, idx_b := 0, a_wrapped_since_flip := true, b_wrapped_since_flip := false, passage_idx := 4,
          week_people := [((144 : Int), { sunday := some ("B1", "Group B"), weekday := some ("A1", "Group A"), saturday := some ("A1", "Group A") })],
          rows := [{ Passage := "P25, Thaw P11", Day := "Sunday", Date := 144, IsWeekend := "Weekend", AssignedGroup := "Group B", Person := "B1" },
          { Passage := "P12", Day := "Tuesday", Date := 192, IsWeekend := "Weekday", AssignedGroup := "Group A", Person := "A1" },
          { Passage := "P13", Day := "Thursday", Date := 240, IsWeekend := "Weekday", AssignedGroup := "Group A", Person := "A1" },
          { Passage := "P14", Day := "Saturday", Date := 288, IsWeekend := "Weekend", AssignedGroup := "Group A", Person := "A1" }], events_left := 1 } from rfl]
    norm_num [singleParams]
  have h5 : event_loop singleParams [] rfl
    { current := 336, a_handles_weekday := false, idx_a := 0, idx_b := 0, a_wrapped_since_flip := true, b_wrapped_since_flip := false, passage_idx := 4,
      week_people := [((144 : Int), { sunday := some ("B1", "Group B"), weekday := some ("A1", "Group A"), saturday := some ("A1", "Group A") })],
      rows := [{ Passage := "P25, Thaw P11", Day := "Sunday", Date := 144, IsWeekend := "Weekend", AssignedGroup := "Group B", Person := "B1" },
      { Passage := "P12", Day := "Tuesday", Date := 192, IsWeekend := "Weekday", AssignedGroup := "Group A", Person := "A1" },
      { Passage := "P13", Day := "Thursday", Date := 240, IsWeekend := "Weekday", AssignedGroup := "Group A", Person := "A1" },
      { Passage := "P14", Day := "Saturday", Date := 288, IsWeekend := "Weekend", AssignedGroup := "Group A", Person := "A1" }], events_left := 1 } = event_loop singleParams [] rfl
    { current := 384, a_handles_weekday := true, idx_a := 0, idx_b := 0, a_wrapped_since_flip := false, b_wrapped_since_flip := false, passage_idx := 5,
      week_people := [((144 : Int), { sunday := some ("B1", "Group B"), weekday := some ("A1", "Group A"), saturday := some ("A1", "Group A") }), ((312 : Int), { sunday := none, weekday := some ("B1", "Group B"), saturday := none })],
      rows := [{ Passage := "P25, Thaw P11", Day := "Sunday", Date := 144, IsWeekend := "Weekend", AssignedGroup := "Group B", Person := "B1" },
      { Passage := "P12", Day := "Tuesday", Date := 192, IsWeekend := "Weekday", AssignedGroup := "Group A", Person := "A1" },
      { Passage := "P13", Day := "Thursday", Date := 240, IsWeekend := "Weekday", AssignedGroup := "Group A", Person := "A1" },
      { Passage := "P14", Day := "Saturday", Date := 288, IsWeekend := "Weekend", AssignedGroup := "Group A", Person := "A1" },
      { Passage := "P15", Day := "Monday", Date := 336, IsWeekend := "Weekday", AssignedGroup := "Group B", Person := "B1" }], events_left := 0 } := by
    rw [event_loop, show runStep singleParams []
        { current := 336, a_handles_weekday := false, idx_a := 0, idx_b := 0, a_wrapped_since_flip := true, b_wrapped_since_flip := false, passage_idx := 4,
          week_people := [((144 : Int), { sunday := some ("B1", "Group B"), weekday := some ("A1", "Group A"), saturday := some ("A1", "Group A") })],
          rows := [{ Passage := "P25, Thaw P11", Day := "Sunday", Date := 144, IsWeekend := "Weekend", AssignedGroup := "Group B", Person := "B1" },
          { Passage := "P12", Day := "Tuesday", Date := 192, IsWeekend := "Weekday", AssignedGroup := "Group A", Person := "A1" },
          { Passage := "P13", Day := "Thursday", Date := 240, IsWeekend := "Weekday", AssignedGroup := "Group A", Person := "A1" },
          { Passage := "P14", Day := "Saturday", Date := 288, IsWeekend := "Weekend", AssignedGroup := "Group A", Person := "A1" }], events_left := 1 } = .ok
        { current := 384, a_handles_weekday := true, idx_a := 0, idx_b := 0, a_wrapped_since_flip := false, b_wrapped_since_flip := false, passage_idx := 5,
          week_people := [((144 : Int), { sunday := some ("B1", "Group B"), weekday := some ("A1", "Group A"), saturday := some ("A1", "Group A") }), ((312 : Int), { sunday := none, weekday := some ("B1", "Group B"), saturday := none })],
          rows := [{ Passage := "P25, Thaw P11", Day := "Sunday", Date := 144, IsWeekend := "Weekend", AssignedGroup := "Group B", Person := "B1" },
          { Passage := "P12", Day := "Tuesday", Date := 192, IsWeekend := "Weekday", AssignedGroup := "Group A", Person := "A1" },
          { Passage := "P13", Day := "Thursday", Date := 240, IsWeekend := "Weekday", AssignedGroup := "Group A", Person := "A1" },
          { Passage := "P14", Day := "Saturday", Date := 288, IsWeekend := "Weekend", AssignedGroup := "Group A", Person := "A1" },
          { Passage := "P15", Day := "Monday", Date := 336, IsWeekend := "Weekday", AssignedGroup := "Group B", Person := "B1" }], events_left := 0 } from rfl]
    norm_num [singleParams]
  have hF : event_loop singleParams [] rfl
    { current := 384, a_handles_weekday := true, idx_a := 0, idx_b := 0, a_wrapped_since_flip := false, b_wrapped_since_flip := false, passage_idx := 5,
      week_people := [((144 : Int), { sunday := some ("B1", "Group B"), weekday := some ("A1", "Group A"), saturday := some ("A1", "Group A") }), ((312 : Int), { sunday := none, weekday := some ("B1", "Group B"), saturday := none })],
      rows := [{ Passage := "P25, Thaw P11", Day := "Sunday", Date := 144, IsWeekend := "Weekend", AssignedGroup := "Group B", Person := "B1" },
      { Passage := "P12", Day := "Tuesday", Date := 192, IsWeekend := "Weekday", AssignedGroup := "Group A", Person := "A1" },
      { Passage := "P13", Day := "Thursday", Date := 240, IsWeekend := "Weekday", AssignedGroup := "Group A", Person := "A1" },
      { Passage := "P14", Day := "Saturday", Date := 288, IsWeekend := "Weekend", AssignedGroup := "Group A", Person := "A1" },
      { Passage := "P15", Day := "Monday", Date := 336, IsWeekend := "Weekday", AssignedGroup := "Group B", Person := "B1" }], events_left := 0 } = .ok
    [{ Passage := "P25, Thaw P11", Day := "Sunday", Date := 144, IsWeekend := "Weekend", AssignedGroup := "Group B", Person := "B1" },
      { Passage := "P12", Day := "Tuesday", Date := 192, IsWeekend := "Weekday", AssignedGroup := "Group A", Person := "A1" },
      { Passage := "P13", Day := "Thursday", Date := 240, IsWeekend := "Weekday", AssignedGroup := "Group A", Person := "A1" },
      { Passage := "P14", Day := "Saturday", Date := 288, IsWeekend := "Weekend", AssignedGroup := "Group A", Person := "A1" },
      { Passage := "P15", Day := "Monday", Date := 336, IsWeekend := "Weekday", AssignedGroup := "Group B", Person := "B1" }] := by
    rw [event_loop]
    norm_num
  rw [h0, h1, h2, h3, h4, h5, hF]

/-- Concrete run of the generator, used by witnesses. -/
theorem date_run : generate_293t_schedule dateParams = .ok
    [{ Passage := "P25, Thaw P11", Day := "Sunday", Date := 144, IsWeekend := "Weekend", AssignedGroup := "Group B", Person := "B1" },
      { Passage := "P12", Day := "Thursday", Date := 240, IsWeekend := "Weekday", AssignedGroup := "Group A", Person := "A1" }] := by
  have h0 : generate_293t_schedule dateParams = date_loop dateParams [192] 240
    { current := 144, a_handles_weekday := true, idx_a := 0, idx_b := 0, a_wrapped_since_flip := false, b_wrapped_since_flip := false, passage_idx := 0,
      week_people := [],
      rows := [], events_left := 0 } := rfl
  have h1 : date_loop dateParams [192] 240
    { current := 144, a_handles_weekday := true, idx_a := 0, idx_b := 0, a_wrapped_since_flip := false, b_wrapped_since_flip := false, passage_idx := 0,
      week_people := [],
      rows := [], events_left := 0 } = date_loop dateParams [192] 240
    { current := 192, a_handles_weekday := true, idx_a := 0, idx_b := 1, a_wrapped_since_flip := false, b_wrapped_since_flip := false, passage_idx := 1,
      week_people := [((144 : Int), { sunday := some ("B1", "Group B"), weekday := none, saturday := none })],
      rows := [{ Passage := "P25, Thaw P11", Day := "Sunday", Date := 144, IsWeekend := "Weekend", AssignedGroup := "Group B", Person := "B1" }], events_left := 0 } := by
    rw [date_loop, show runStep dateParams [192]
        { current := 144, a_handles_weekday := true, idx_a := 0, idx_b := 0, a_wrapped_since_flip := false, b_wrapped_since_flip := false, passage_idx := 0,
          week_people := [],
          rows := [], events_left := 0 } = .ok
        { current := 192, a_handles_weekday := true, idx_a := 0, idx_b := 1, a_wrapped_since_flip := false, b_wrapped_since_flip := false, passage_idx := 1,
          week_people := [((144 : Int), { sunday := some ("B1", "Group B"), weekday := none, saturday := none })],
          rows := [{ Passage := "P25, Thaw P11", Day := "Sunday", Date := 144, IsWeekend := "Weekend", AssignedGroup := "Group B", Person := "B1" }], events_left := 0 } from rfl]
    norm_num [dateParams]
  have h2 : date_loop dateParams [192] 240
    { current := 192, a_handles_weekday := true, idx_a := 0, idx_b := 1, a_wrapped_since_flip := false, b_wrapped_since_flip := false, passage_idx := 1,
      week_people := [((144 : Int), { sunday := some ("B1", "Group B"), weekday := none, saturday := none })],
      rows := [{ Passage := "P25, Thaw P11", Day := "Sunday", Date := 144, IsWeekend := "Weekend", AssignedGroup := "Group B", Person := "B1" }], events_left := 0 } = date_loop dateParams [192] 240
    { current := 240, a_handles_weekday := true, idx_a := 0, idx_b := 1, a_wrapped_since_flip := false, b_wrapped_since_flip := false, passage_idx := 1,
      week_people := [((144 : Int), { sunday := some ("B1", "Group B"), weekday := none, saturday := none })],
      rows := [{ Passage := "P25, Thaw P11", Day := "Sunday", Date := 144, IsWeekend := "Weekend", AssignedGroup := "Group B", Person := "B1" }], events_left := 0 } := by
    rw [date_loop, show runStep dateParams [192]
        { current := 192, a_handles_weekday := true, idx_a := 0, idx_b := 1, a_wrapped_since_flip := false, b_wrapped_since_flip := false, passage_idx := 1,
          week_people := [((144 : Int), { sunday := some ("B1", "Group B"), weekday := none, saturday := none })],
          rows := [{ Passage := "P25, Thaw P11", Day := "Sunday", Date := 144, IsWeekend := "Weekend", AssignedGroup := "Group B", Person := "B1" }], events_left := 0 } = .ok
        { current := 240, a_handles_weekday := true, idx_a := 0, idx_b := 1, a_wrapped_since_flip := false, b_wrapped_since_flip := false, passage_idx := 1,
          week_people := [((144 : Int), { sunday := some ("B1", "Group B"), weekday := none, saturday := none })],
          rows := [{ Passage := "P25, Thaw P11", Day := "Sunday", Date := 144, IsWeekend := "Weekend", AssignedGroup := "Group B", Person := "B1" }], events_left := 0 } from rfl]
    norm_num [dateParams]
  have h3 : date_loop dateParams [192] 240
    { current := 240, a_handles_weekday := true, idx_a := 0, idx_b := 1, a_wrapped_since_flip := false, b_wrapped_since_flip := false, passage_idx := 1,
      week_people := [((144 : Int), { sunday := some ("B1", "Group B"), weekday := none, saturday := none })],
      rows := [{ Passage := "P25, Thaw P11", Day := "Sunday", Date := 144, IsWeekend := "Weekend", AssignedGroup := "Group B", Person := "B1" }], events_left := 0 } = date_loop dateParams [192] 240
    { current := 288, a_handles_weekday := true, idx_a := 1, idx_b := 1, a_wrapped_since_flip := false, b_wrapped_since_flip := false, passage_idx := 2,
      week_people := [((144 : Int), { sunday := some ("B1", "Group B"), weekday := some ("A1", "Group A"), saturday := none })],
      rows := [{ Passage := "P25, Thaw P11", Day := "Sunday", Date := 144, IsWeekend := "Weekend", AssignedGroup := "Group B", Person := "B1" },
      { Passage := "P12", Day := "Thursday", Date := 240, IsWeekend := "Weekday", AssignedGroup := "Group A", Person := "A1" }], events_left := 0 } := by
    rw [date_loop, show runStep dateParams [192]
        { current := 240, a_handles_weekday := true, idx_a := 0, idx_b := 1, a_wrapped_since_flip := false, b_wrapped_since_flip := false, passage_idx := 1,
          week_people := [((144 : Int), { sunday := some ("B1", "Group B"), weekday := none, saturday := none })],
          rows := [{ Passage := "P25, Thaw P11", Day := "Sunday", Date := 144, IsWeekend := "Weekend", AssignedGroup := "Group B", Person := "B1" }], events_left := 0 } = .ok
        { current := 288, a_handles_weekday := true, idx_a := 1, idx_b := 1, a_wrapped_since_flip := false, b_wrapped_since_flip := false, passage_idx := 2,
          week_people := [((144 : Int), { sunday := some ("B1", "Group B"), weekday := some ("A1", "Group A"), saturday := none })],
          rows := [{ Passage := "P25, Thaw P11", Day := "Sunday", Date := 144, IsWeekend := "Weekend", AssignedGroup := "Group B", Person := "B1" },
          { Passage := "P12", Day := "Thursday", Date := 240, IsWeekend := "Weekday", AssignedGroup := "Group A", Person := "A1" }], events_left := 0 } from rfl]
    norm_num [dateParams]
  have hF : date_loop dateParams [192] 240
    { current := 288, a_handles_weekday := true, idx_a := 1, idx_b := 1, a_wrapped_since_flip := false, b_wrapped_since_flip := false, passage_idx := 2,
      week_people := [((144 : Int), { sunday := some ("B1", "Group B"), weekday := some ("A1", "Group A"), saturday := none })],
      rows := [{ Passage := "P25, Thaw P11", Day := "Sunday", Date := 144, IsWeekend := "Weekend", AssignedGroup := "Group B", Person := "B1" },
      { Passage := "P12", Day := "Thursday", Date := 240, IsWeekend := "Weekday", AssignedGroup := "Group A", Person := "A1" }], events_left := 0 } = .ok
    [{ Passage := "P25, Thaw P11", Day := "Sunday", Date := 144, IsWeekend := "Weekend", AssignedGroup := "Group B", Person := "B1" },
      { Passage := "P12", Day := "Thursday", Date := 240, IsWeekend := "Weekday", AssignedGroup := "Group A", Person := "A1" }] := by
    rw [date_loop]
    norm_num
  rw [h0, h1, h2, h3, hF]

/-- Concrete run of the generator, used by witnesses. -/
theorem cex_run : generate_293t_schedule cexParams = .ok
    [{ Passage := "P25, Thaw P11", Day := "Monday", Date := 0, IsWeekend := "Weekday", AssignedGroup := "Group A", Person := "a" },
      { Passage := "P12", Day := "Tuesday", Date := 24, IsWeekend := "Weekday", AssignedGroup := "Group A", Person := "a" }] := by
  have h0 : generate_293t_schedule cexParams = event_loop cexParams [24] rfl
    { current := 0, a_handles_weekday := true, idx_a := 0, idx_b := 0, a_wrapped_since_flip := false, b_wrapped_since_flip := false, passage_idx := 0,
      week_people := [],
      rows := [], events_left := 2 } := rfl
  have h1 : event_loop cexParams [24] rfl
    { current := 0, a_handles_weekday := true, idx_a := 0, idx_b := 0, a_wrapped_since_flip := false, b_wrapped_since_flip := false, passage_idx := 0,
      week_people := [],
      rows := [], events_left := 2 } = event_loop cexParams [24] rfl
    { current := 36, a_handles_weekday := true, idx_a := 0, idx_b := 0, a_wrapped_since_flip := true, b_wrapped_since_flip := false, passage_idx := 1,
      week_people := [((-24 : Int), { sunday := none, weekday := some ("a", "Group A"), saturday := none })],
      rows := [{ Passage := "P25, Thaw P11", Day := "Monday", Date := 0, IsWeekend := "Weekday", AssignedGroup := "Group A", Person := "a" }], events_left := 1 } := by
    rw [event_loop, show runStep cexParams [24]
        { current := 0, a_handles_weekday := true, idx_a := 0, idx_b := 0, a_wrapped_since_flip := false, b_wrapped_since_flip := false, passage_idx := 0,
          week_people := [],
          rows := [], events_left := 2 } = .ok
        { current := 36, a_handles_weekday := true, idx_a := 0, idx_b := 0, a_wrapped_since_flip := true, b_wrapped_since_flip := false, passage_idx := 1,
          week_people := [((-24 : Int), { sunday := none, weekday := some ("a", "Group A"), saturday := none })],
          rows := [{ Passage := "P25, Thaw P11", Day := "Monday", Date := 0, IsWeekend := "Weekday", AssignedGroup := "Group A", Person := "a" }], events_left := 1 } from rfl]
    norm_num [cexParams]
  have h2 : event_loop cexParams [24] rfl
    { current := 36, a_handles_weekday := true, idx_a := 0, idx_b := 0, a_wrapped_since_flip := true, b_wrapped_since_flip := false, passage_idx := 1,
      week_people := [((-24 : Int), { sunday := none, weekday := some ("a", "Group A"), saturday := none })],
      rows := [{ Passage := "P25, Thaw P11", Day := "Monday", Date := 0, IsWeekend := "Weekday", AssignedGroup := "Group A", Person := "a" }], events_left := 1 } = event_loop cexParams [24] rfl
    { current := 72, a_handles_weekday := true, idx_a := 0, idx_b := 0, a_wrapped_since_flip := true, b_wrapped_since_flip := false, passage_idx := 2,
      week_people := [((-24 : Int), { sunday := none, weekday := some ("a", "Group A"), saturday := none })],
      rows := [{ Passage := "P25, Thaw P11", Day := "Monday", Date := 0, IsWeekend := "Weekday", AssignedGroup := "Group A", Person := "a" },
      { Passage := "P12", Day := "Tuesday", Date := 24, IsWeekend := "Weekday", AssignedGroup := "Group A", Person := "a" }], events_left := 0 } := by
    rw [event_loop, show runStep cexParams [24]
        { current := 36, a_handles_weekday := true, idx_a := 0, idx_b := 0, a_wrapped_since_flip := true, b_wrapped_since_flip := false, passage_idx := 1,
          week_people := [((-24 : Int), { sunday := none, weekday := some ("a", "Group A"), saturday := none })],
          rows := [{ Passage := "P25, Thaw P11", Day := "Monday", Date := 0, IsWeekend := "Weekday", AssignedGroup := "Group A", Person := "a" }], events_left := 1 } = .ok
        { current := 72, a_handles_weekday := true, idx_a := 0, idx_b := 0, a_wrapped_since_flip := true, b_wrapped_since_flip := false, passage_idx := 2,
          week_people := [((-24 : Int), { sunday := none, weekday := some ("a", "Group A"), saturday := none })],
          rows := [{ Passage := "P25, Thaw P11", Day := "Monday", Date := 0, IsWeekend := "Weekday", AssignedGroup := "Group A", Person := "a" },
          { Passage := "P12", Day := "Tuesday", Date := 24, IsWeekend := "Weekday", AssignedGroup := "Group A", Person := "a" }], events_left := 0 } from rfl]
    norm_num [cexParams]
  have hF : event_loop cexParams [24] rfl
    { current := 72, a_handles_weekday := true, idx_a := 0, idx_b := 0, a_wrapped_since_flip := true, b_wrapped_since_flip := false, passage_idx := 2,
      week_people := [((-24 : Int), { sunday := none, weekday := some ("a", "Group A"), saturday := none })],
      rows := [{ Passage := "P25, Thaw P11", Day := "Monday", Date := 0, IsWeekend := "Weekday", AssignedGroup := "Group A", Person := "a" },
      { Passage := "P12", Day := "Tuesday", Date := 24, IsWeekend := "Weekday", AssignedGroup := "Group A", Person := "a" }], events_left := 0 } = .ok
    [{ Passage := "P25, Thaw P11", Day := "Monday", Date := 0, IsWeekend := "Weekday", AssignedGroup := "Group A", Person := "a" },
      { Passage := "P12", Day := "Tuesday", Date := 24, IsWeekend := "Weekday", AssignedGroup := "Group A", Person := "a" }] := by
    rw [event_loop]
    norm_num
  rw [h0, h1, h2, hF]

/-- The rows produced by `generate_293t_schedule singleParams`. -/
def singleRows : List Record :=
  [{ Passage := "P25, Thaw P11", Day := "Sunday", Date := 144,
     IsWeekend := "Weekend", AssignedGroup := "Group B", Person := "B1" },
   { Passage := "P12", Day := "Tuesday", Date := 192,
     IsWeekend := "Weekday", AssignedGroup := "Group A", Person := "A1" },
   { Passage := "P13", Day := "Thursday", Date := 240,
     IsWeekend := "Weekday", AssignedGroup := "Group A", Person := "A1" },
   { Passage := "P14", Day := "Saturday", Date := 288,
     IsWeekend := "Weekend", AssignedGroup := "Group A", Person := "A1" },
   { Passage := "P15", Day := "Monday", Date := 336,
     IsWeekend := "Weekday", AssignedGroup := "Group B", Person := "B1" }]

theorem single_run_rows : generate_293t_schedule singleParams = .ok singleRows :=
  single_run

/-- The rows produced by `generate_293t_schedule dateParams`. -/
def dateRows : List Record :=
  [{ Passage := "P25, Thaw P11", Day := "Sunday", Date := 144,
     IsWeekend := "Weekend", AssignedGroup := "Group B", Person := "B1" },
   { Passage := "P12", Day := "Thursday", Date := 240,
     IsWeekend := "Weekday", AssignedGroup := "Group A", Person := "A1" }]

theorem date_run_rows : generate_293t_schedule dateParams = .ok dateRows :=
  date_run

/-- The rows produced by `generate_293t_schedule cexParams`. -/
def cexRows : List Record :=
  [{ Passage := "P25, Thaw P11", Day := "Monday", Date := 0,
     IsWeekend := "Weekday", AssignedGroup := "Group A", Person := "a" },
   { Passage := "P12", Day := "Tuesday", Date := 24,
     IsWeekend := "Weekday", AssignedGroup := "Group A", Person := "a" }]

theorem cex_run_rows : generate_293t_schedule cexParams = .ok cexRows :=
  cex_run

/-- Invariant propagation along a whole successful generator run, in either
bounding mode: any property of the loop state preserved by successful
iterations holds at the exit state, whose rows are the returned rows. -/
theorem generate_ok_inv (p : ScheduleParams) (rows : List Record)
    (hok : generate_293t_schedule p = .ok rows) (Inv : LoopState → Prop)
    (hstep : ∀ s s', Inv s → 0 < p.interval_hours →
      runStep p (skip_normalized p) s = .ok s' → Inv s')
    (hinit : ∀ n : Int, Inv { init_state p with events_left := n }) :
    ∃ sf, Inv sf ∧ sf.rows = rows := by
  obtain ⟨_, _, _, _, _, _, _, hmode⟩ := generate_ok_elim p rows hok
  rcases hmode with ⟨ed, _, hloop⟩ | ⟨hn, n, _, hloop⟩
  · obtain ⟨sf, hsf, hrows, _⟩ := date_loop_inv p (skip_normalized p)
      (normalize ed) Inv (fun s s' hi _ hp h => hstep s s' hi hp h)
      (init_state p) rows (hinit 0) hloop
    exact ⟨sf, hsf, hrows⟩
  · obtain ⟨sf, hsf, hrows, _⟩ := event_loop_inv p (skip_normalized p) hn Inv
      (fun s s' hi _ hp h => hstep s s' hi hp h)
      { init_state p with events_left := n } rows (hinit n) hloop
    exact ⟨sf, hsf, hrows⟩

/-- C7: for every configuration and every candidate instant whose timestamp
is in the skip set, processing that candidate changes no generator state
other than advancing the current instant by the cadence: the label-cycle
cursor, both queue cursors, both wrap flags, the role state, the week
buckets, the rows already emitted and the remaining-events counter are all
unchanged, so the skipped candidate does not count toward `num_events`. -/
theorem claim_C7_skip_pure_advance (p : ScheduleParams) (skipSet : List Int)
    (s : LoopState) (hmem : s.current ∈ skipSet) :
    runStep p skipSet s =
      .ok { s with current := s.current + p.interval_hours } := by
  unfold runStep
  rw [if_pos hmem]

/-- C6: the generator fails with an error, emitting no records, whenever
the configuration has an empty group, both or neither bound, an invalid or
duplicate start role, or an unknown start passage label; validation
happens before the loop, so no record is produced. -/
theorem claim_C6_validation_error (p : ScheduleParams)
    (hbad : ((p.end_date = none) ↔ (p.num_events = none)) ∨
      p.group_a = [] ∨ p.group_b = [] ∨
      ¬(p.start_roles.1 = "weekday" ∨ p.start_roles.1 = "weekend") ∨
      ¬(p.start_roles.2 = "weekday" ∨ p.start_roles.2 = "weekend") ∨
      p.start_roles.1 = p.start_roles.2 ∨
      p.start_passage_label ∉ PASSAGE_CYCLE) :
    ∃ e, generate_293t_schedule p = .error e := by
  cases hok : generate_293t_schedule p with
  | error e => exact ⟨e, rfl⟩
  | ok rows =>
    obtain ⟨hxor, hga, hgb, hr1, hr2, hdup, hlbl, _⟩ :=
      generate_ok_elim p rows hok
    tauto

/-- C3: for every valid configuration, the sequence of `Passage` labels over
the emitted records, in emission order, is the canonical 14-entry cycle
read cyclically from the index of `start_passage_label`; exactly one label
is consumed per emitted record, regardless of skips, weekly caching or
role flips. -/
theorem claim_C3_passage_sequence (p : ScheduleParams) (rows : List Record)
    (hok : generate_293t_schedule p = .ok rows) :
    ∀ i, i < rows.length →
      (rows.map Record.Passage).getD i "" =
        PASSAGE_CYCLE.getD
          ((PASSAGE_CYCLE.indexOf p.start_passage_label + i) %
            PASSAGE_CYCLE.length) "" := by
  obtain ⟨_, _, _, _, _, _, hlbl, _⟩ := generate_ok_elim p rows hok
  have hidx0 : PASSAGE_CYCLE.indexOf p.start_passage_label <
      PASSAGE_CYCLE.length := List.indexOf_lt_length.mpr hlbl
  have hlen : PASSAGE_CYCLE.length = 14 := rfl
  obtain ⟨sf, ⟨_, hall⟩, hrows⟩ := generate_ok_inv p rows hok
    (fun s => s.passage_idx =
        (PASSAGE_CYCLE.indexOf p.start_passage_label + s.rows.length) %
          PASSAGE_CYCLE.length ∧
      ∀ i, i < s.rows.length →
        (s.rows.map Record.Passage).getD i "" =
          PASSAGE_CYCLE.getD
            ((PASSAGE_CYCLE.indexOf p.start_passage_label + i) %
              PASSAGE_CYCLE.length) "")
    (by
      intro s s' hinv _ hok0
      obtain ⟨hcur, hall⟩ := hinv
      rcases runStep_ok_inv p _ s s' hok0 with ⟨_, rfl⟩ |
        ⟨hmem, per, g, s1, pass, hres, hpass, rfl⟩
      · exact ⟨hcur, hall⟩
      · obtain ⟨_, hpi, hrw, _⟩ := resolve_slot_frame p s per g s1 hres
        constructor
        · show (s1.passage_idx + 1) % PASSAGE_CYCLE.length = _
          rw [hpi, hrw, hcur]
          simp only [List.length_append, List.length_cons, List.length_nil,
            hlen]
          omega
        · intro i hi
          simp only [List.length_append, List.length_cons, List.length_nil,
            hrw] at hi
          simp only [List.map_append, List.map_cons, List.map_nil, hrw]
          by_cases hlt : i < s.rows.length
          · rw [List.getD_eq_getD_get?, List.get?_append
              (by simpa using hlt), ← List.getD_eq_getD_get?]
            exact hall i hlt
          · have hieq : i = (s.rows.map Record.Passage).length := by
              simp only [List.length_map]
              omega
            rw [List.getD_eq_getD_get?, hieq, List.get?_concat_length]
            have hpd : PASSAGE_CYCLE.getD s1.passage_idx "" = pass := by
              simp only [List.getD_eq_getD_get?, hpass, Option.getD_some]
            rw [← hpd, hpi, hcur]
            simp only [List.length_map, Option.getD_some])
    (by
      intro n
      have h14 : PASSAGE_CYCLE.indexOf p.start_passage_label < 14 :=
        hlen ▸ hidx0
      constructor
      · simp only [init_state, List.length_nil, hlen]
        omega
      · intro i hi
        simp only [init_state, List.length_nil] at hi
        cases hi)
  rw [← hrows]
  exact hall

/-- The number of candidate instants `start + k·interval` (k ≥ 0) that lie
in the inclusive range up to `endT`, as visited by the date-bounded loop
with a positive cadence. -/
def num_candidates (start endT interval : Int) : Nat :=
  if start ≤ endT then ((endT - start) / interval).toNat + 1 else 0

/-- The candidate instants visited by the date-bounded loop, in order. -/
def candidate_instants (start endT interval : Int) : List Int :=
  (List.range (num_candidates start endT interval)).map
    (fun k : Nat => start + (k : Int) * interval)

theorem candidate_lt_iff (start endT interval : Int)
    (hpos : 0 < interval) (k : Nat) :
    start + k * interval ≤ endT ↔ k < num_candidates start endT interval := by
  unfold num_candidates
  by_cases hse : start ≤ endT
  · rw [if_pos hse]
    have hq0 : (0 : Int) ≤ (endT - start) / interval :=
      Int.ediv_nonneg (by omega) (by omega)
    constructor
    · intro h
      have h1 : (k : Int) * interval ≤ endT - start := by omega
      have h2 : (k : Int) ≤ (endT - start) / interval :=
        (Int.le_ediv_iff_mul_le hpos).mpr h1
      omega
    · intro h
      have h2 : (k : Int) ≤ (endT - start) / interval := by omega
      have h1 := (Int.le_ediv_iff_mul_le hpos).mp h2
      omega
  · rw [if_neg hse]
    constructor
    · intro h
      exfalso
      have hk0 : (0 : Int) ≤ (k : Int) * interval := by positivity
      omega
    · intro h
      exact absurd h (by omega)

theorem candidate_length (start endT interval : Int) :
    (candidate_instants start endT interval).length =
      num_candidates start endT interval := by
  unfold candidate_instants
  rw [List.length_map, List.length_range]

theorem candidate_get (start endT interval : Int) (k : Nat)
    (hk : k < num_candidates start endT interval) :
    (candidate_instants start endT interval)[k]? =
      some (start + (k : Int) * interval) := by
  unfold candidate_instants
  rw [List.getElem?_map, List.getElem?_range hk]
  rfl

/-- C1: for every valid configuration, the number of emitted records equals
`num_events` when that bound is used (first conjunct), and equals the number
of non-skipped candidate instants in the inclusive range up to `end_date`
when the date bound is used (second conjunct). -/
theorem claim_C1_emitted_count :
    (∀ (p : ScheduleParams) (n : Int) (rows : List Record),
      p.num_events = some n → 0 < n →
      generate_293t_schedule p = .ok rows → (rows.length : Int) = n) ∧
    (∀ (p : ScheduleParams) (ed : Int) (rows : List Record),
      p.end_date = some ed →
      generate_293t_schedule p = .ok rows →
      rows.length = ((candidate_instants (normalize p.start_date)
        (normalize ed) p.interval_hours).filter
          (fun t => decide (t ∉ skip_normalized p))).length) := by
  constructor
  · intro p n rows hn hnpos hok
    obtain ⟨hxor, _, _, _, _, _, _, hmode⟩ := generate_ok_elim p rows hok
    rcases hmode with ⟨ed, hend, _⟩ | ⟨hnone, n', hnum, hloop⟩
    · exfalso
      simp [hend, hn] at hxor
    · rw [hn] at hnum
      cases hnum
      obtain ⟨sf, ⟨h0, hsum⟩, hrows, hexit⟩ := event_loop_inv p
        (skip_normalized p) hnone
        (fun s => 0 ≤ s.events_left ∧
          s.events_left + (s.rows.length : Int) = n)
        (by
          intro s s' ⟨h0, hsum⟩ hguard _ hok0
          rcases runStep_ok_inv p _ s s' hok0 with ⟨_, rfl⟩ |
            ⟨hmem, per, g, s1, pass, hres, hpass, rfl⟩
          · exact ⟨h0, hsum⟩
          · obtain ⟨_, _, hrw, hev⟩ := resolve_slot_frame p s per g s1 hres
            constructor
            · show 0 ≤ (if p.end_date = none then s1.events_left - 1
                else s1.events_left)
              rw [if_pos hnone, hev]
              omega
            · show (if p.end_date = none then s1.events_left - 1
                else s1.events_left) + _ = n
              rw [if_pos hnone, hev]
              simp only [List.length_append, List.length_cons,
                List.length_nil, hrw]
              push_cast
              omega)
        _ rows ⟨by simpa [init_state] using hnpos.le, by simp [init_state]⟩
        hloop
      rw [← hrows]
      omega
  · intro p ed rows hend hok
    obtain ⟨hxor, _, _, _, _, _, _, hmode⟩ := generate_ok_elim p rows hok
    rcases hmode with ⟨ed', hend', hloop⟩ | ⟨hnone, n', hnum, hloop⟩
    · rw [hend] at hend'
      cases hend'
      obtain ⟨sf, ⟨k, hc, hlen⟩, hrows, hexit⟩ := date_loop_inv p
        (skip_normalized p) (normalize ed)
        (fun s => ∃ k : Nat,
          s.current = normalize p.start_date + k * p.interval_hours ∧
          s.rows.length = (((candidate_instants (normalize p.start_date)
            (normalize ed) p.interval_hours).take k).filter
              (fun t => decide (t ∉ skip_normalized p))).length)
        (by
          intro s s' ⟨k, hc, hlen⟩ hle hpos hok0
          have hkN : k < num_candidates (normalize p.start_date)
              (normalize ed) p.interval_hours :=
            (candidate_lt_iff _ _ _ hpos k).mp (hc ▸ hle)
          have htake : (candidate_instants (normalize p.start_date)
              (normalize ed) p.interval_hours).take (k + 1) =
              (candidate_instants (normalize p.start_date)
                (normalize ed) p.interval_hours).take k ++
                [normalize p.start_date + k * p.interval_hours] := by
            rw [List.take_succ, candidate_get _ _ _ k hkN]
            rfl
          rcases runStep_ok_inv p _ s s' hok0 with ⟨hmem, rfl⟩ |
            ⟨hmem, per, g, s1, pass, hres, hpass, rfl⟩
          · refine ⟨k + 1, ?_, ?_⟩
            · show s.current + p.interval_hours = _
              rw [hc]
              push_cast
              ring
            · show s.rows.length = _
              rw [htake, List.filter_append, List.length_append, hlen]
              have hskip : (normalize p.start_date +
                  (k : Int) * p.interval_hours) ∈ skip_normalized p :=
                hc ▸ hmem
              simp [List.filter_cons, hskip]
          · obtain ⟨hcur1, _, hrw, _⟩ := resolve_slot_frame p s per g s1 hres
            refine ⟨k + 1, ?_, ?_⟩
            · show s1.current + p.interval_hours = _
              rw [hcur1, hc]
              push_cast
              ring
            · show (s1.rows ++ [_]).length = _
              rw [htake, List.filter_append, List.length_append, hrw,
                List.length_append, hlen]
              have hskip : (normalize p.start_date +
                  (k : Int) * p.interval_hours) ∉ skip_normalized p :=
                hc ▸ hmem
              simp [List.filter_cons, hskip])
        _ rows ⟨0, by simp [init_state], by simp [init_state]⟩ hloop
      rw [← hrows, hlen]
      congr 1
      have hkN : ¬ k < num_candidates (normalize p.start_date)
          (normalize ed) p.interval_hours := by
        intro hk
        by_cases hpos : 0 < p.interval_hours
        · exact hexit (hc ▸ (candidate_lt_iff _ _ _ hpos k).mpr hk)
        · unfold num_candidates at hk
          by_cases hse : normalize p.start_date ≤ normalize ed
          · exact hexit (by
              rw [hc]
              by_contra hgt
              push_neg at hgt
              have : (0 : Int) < (k : Int) * p.interval_hours := by omega
              rcases Nat.eq_zero_or_pos k with rfl | hkpos
              · simp at this
              · nlinarith [this, (by omega : p.interval_hours ≤ 0),
                  (by positivity : (0 : Int) ≤ (k : Int))])
          · rw [if_neg hse] at hk
            cases hk
      rw [List.take_of_length_le]
      rw [candidate_length]
      omega
    · rw [hend] at hnone
      cases hnone

/-- If the bucket cache only holds pairs drawn from the two groups, so is a
pair returned by `resolve_slot`, and the updated cache keeps the property. -/
theorem resolve_slot_good (p : ScheduleParams) (s : LoopState)
    (person gname : String) (s1 : LoopState)
    (hcache : ∀ wk sl v, slot_lookup (wp_get s.week_people wk) sl = some v →
      (v.2 = "Group A" ∧ v.1 ∈ p.group_a) ∨
      (v.2 = "Group B" ∧ v.1 ∈ p.group_b))
    (h : resolve_slot p s = some (person, gname, s1)) :
    ((gname = "Group A" ∧ person ∈ p.group_a) ∨
      (gname = "Group B" ∧ person ∈ p.group_b)) ∧
    (∀ wk sl v, slot_lookup (wp_get s1.week_people wk) sl = some v →
      (v.2 = "Group A" ∧ v.1 ∈ p.group_a) ∨
      (v.2 = "Group B" ∧ v.1 ∈ p.group_b)) := by
  unfold resolve_slot at h
  dsimp only at h
  split at h
  · rename_i pg hL
    cases h
    exact ⟨hcache _ _ pg hL, hcache⟩
  · rename_i hL
    split at h
    · cases h
    · rename_i per0 g0 s0 heq
      cases h
      obtain ⟨_, _, hwp, _, _⟩ := consume_from_frame p _ s person gname s0 heq
      have hgood : (gname = "Group A" ∧ person ∈ p.group_a) ∨
          (gname = "Group B" ∧ person ∈ p.group_b) := by
        rcases consume_from_mem p _ s person gname s0 heq with
          ⟨_, hg, hm⟩ | ⟨_, hg, hm⟩
        · exact Or.inl ⟨hg, hm⟩
        · exact Or.inr ⟨hg, hm⟩
      refine ⟨hgood, ?_⟩
      intro wk sl v hv
      dsimp only at hv
      rw [wp_get_set] at hv
      by_cases hwk : wk = week_start_sunday s.current
      · rw [if_pos hwk, slot_lookup_store] at hv
        by_cases hsl : sl = slot_of s.current
        · rw [if_pos hsl] at hv
          cases hv
          exact hgood
        · rw [if_neg hsl] at hv
          rw [hwp] at hv
          exact hcache _ _ v hv
      · rw [if_neg hwk, hwp] at hv
        exact hcache _ _ v hv

/-- C10: every emitted record's `AssignedGroup` is `"Group A"` or
`"Group B"`, and its `Person` belongs to the matching input list. -/
theorem claim_C10_person_from_group (p : ScheduleParams)
    (rows : List Record) (hok : generate_293t_schedule p = .ok rows) :
    ∀ r ∈ rows,
      (r.AssignedGroup = "Group A" ∧ r.Person ∈ p.group_a) ∨
      (r.AssignedGroup = "Group B" ∧ r.Person ∈ p.group_b) := by
  obtain ⟨sf, ⟨_, hall⟩, hrows⟩ := generate_ok_inv p rows hok
    (fun s =>
      (∀ wk sl v, slot_lookup (wp_get s.week_people wk) sl = some v →
        (v.2 = "Group A" ∧ v.1 ∈ p.group_a) ∨
        (v.2 = "Group B" ∧ v.1 ∈ p.group_b)) ∧
      ∀ r ∈ s.rows,
        (r.AssignedGroup = "Group A" ∧ r.Person ∈ p.group_a) ∨
        (r.AssignedGroup = "Group B" ∧ r.Person ∈ p.group_b))
    (by
      intro s s' hinv _ hok0
      obtain ⟨hcache, hall⟩ := hinv
      rcases runStep_ok_inv p _ s s' hok0 with ⟨_, rfl⟩ |
        ⟨hmem, per, g, s1, pass, hres, hpass, rfl⟩
      · exact ⟨hcache, hall⟩
      · obtain ⟨hgood, hcache'⟩ := resolve_slot_good p s per g s1 hcache hres
        obtain ⟨_, _, hrw, _⟩ := resolve_slot_frame p s per g s1 hres
        refine ⟨hcache', ?_⟩
        intro r hr
        simp only [hrw, List.mem_append, List.mem_cons,
          List.not_mem_nil, or_false] at hr
        rcases hr with hr | rfl
        · exact hall r hr
        · exact hgood)
    (by
      refine fun n => ⟨?_, ?_⟩
      · intro wk sl v hv
        simp only [init_state] at hv
        cases sl <;> cases hv
      · intro r hr
        simp only [init_state] at hr
        cases hr)
  rw [← hrows]
  exact hall

/-- C2: within any Sunday-through-Saturday week, all records of the same
slot kind share one `Person` and one `AssignedGroup` (first conjunct); and
once a week's slot is resolved, resolving it again returns the stored pair
without touching any state, so the queues and wrap/flip state are consumed
at most once per week per slot, on the first occurrence (second
conjunct). -/
theorem claim_C2_weekly_consistency :
    (∀ (p : ScheduleParams) (rows : List Record),
      generate_293t_schedule p = .ok rows →
      ∀ r1 ∈ rows, ∀ r2 ∈ rows,
        week_start_sunday r1.Date = week_start_sunday r2.Date →
        slot_of r1.Date = slot_of r2.Date →
        r1.Person = r2.Person ∧ r1.AssignedGroup = r2.AssignedGroup) ∧
    (∀ (p : ScheduleParams) (s : LoopState) (pr : String × String),
      slot_lookup (wp_get s.week_people (week_start_sunday s.current))
        (slot_of s.current) = some pr →
      resolve_slot p s = some (pr.1, pr.2, s)) := by
  constructor
  · intro p rows hok r1 hr1 r2 hr2 hwk hsl
    obtain ⟨sf, hall, hrows⟩ := generate_ok_inv p rows hok
      (fun s => ∀ r ∈ s.rows,
        slot_lookup (wp_get s.week_people (week_start_sunday r.Date))
          (slot_of r.Date) = some (r.Person, r.AssignedGroup))
      (by
        intro s s' hall _ hok0
        rcases runStep_ok_inv p _ s s' hok0 with ⟨_, rfl⟩ |
          ⟨hmem, per, g, s1, pass, hres, hpass, rfl⟩
        · exact hall
        · obtain ⟨_, _, hrw, _⟩ := resolve_slot_frame p s per g s1 hres
          intro r hr
          simp only [hrw, List.mem_append, List.mem_cons,
            List.not_mem_nil, or_false] at hr
          rcases hr with hr | rfl
          · exact resolve_slot_mono p s per g s1 hres _ _ _ (hall r hr)
          · show slot_lookup (wp_get s1.week_people
              (week_start_sunday (normalize s.current)))
              (slot_of (normalize s.current)) = _
            rw [week_start_sunday_normalize, slot_of_normalize]
            exact resolve_slot_caches p s per g s1 hres)
      (by
        intro n r hr
        simp only [init_state] at hr
        cases hr)
    rw [← hrows] at hr1 hr2
    have h1 := hall r1 hr1
    have h2 := hall r2 hr2
    rw [hwk, hsl] at h1
    rw [h2] at h1
    simp only [Option.some.injEq, Prod.mk.injEq] at h1
    exact ⟨h1.1.symm, h1.2.symm⟩
  · intro p s pr hres
    exact resolve_slot_cached p s pr hres

/-- Whether the next `next_person` draw from a queue at the given cursor
wraps the cursor back to zero. -/
def wraps_next (group : List String) (idx : Nat) : Bool :=
  decide (idx + 1 ≥ group.length)

/-- After `maybe_flip_roles` the two wrap flags are never both set: either
they both were and the flip cleared them, or they stay as they were. -/
theorem maybe_flip_roles_not_both (s : LoopState) :
    ¬((maybe_flip_roles s).a_wrapped_since_flip = true ∧
      (maybe_flip_roles s).b_wrapped_since_flip = true) := by
  unfold maybe_flip_roles
  split
  · simp
  · rename_i hc
    simp only [Bool.and_eq_true, not_and] at hc ⊢
    exact hc

/-- `consume_from` preserves the invariant that the two wrap flags are not
both set. -/
theorem consume_from_not_both (p : ScheduleParams) (flag : String)
    (s : LoopState) (person gname : String) (s' : LoopState)
    (hniv : ¬(s.a_wrapped_since_flip = true ∧ s.b_wrapped_since_flip = true))
    (h : consume_from p flag s = some (person, gname, s')) :
    ¬(s'.a_wrapped_since_flip = true ∧ s'.b_wrapped_since_flip = true) := by
  unfold consume_from at h
  split at h <;>
  · split at h
    · cases h
    · rename_i per0 idx0 wrapped heq
      dsimp only at h
      cases h
      split
      · exact maybe_flip_roles_not_both _
      · exact hniv

/-- `resolve_slot` preserves the not-both-wrap-flags invariant. -/
theorem resolve_slot_not_both (p : ScheduleParams) (s : LoopState)
    (person gname : String) (s1 : LoopState)
    (hniv : ¬(s.a_wrapped_since_flip = true ∧ s.b_wrapped_since_flip = true))
    (h : resolve_slot p s = some (person, gname, s1)) :
    ¬(s1.a_wrapped_since_flip = true ∧ s1.b_wrapped_since_flip = true) := by
  unfold resolve_slot at h
  dsimp only at h
  split at h
  · cases h; exact hniv
  · split at h
    · cases h
    · rename_i per0 g0 s0 heq
      cases h
      exact consume_from_not_both p _ s person gname s0 hniv heq

/-- C4: the weekday/weekend role assignment flips exactly when, counting
this consumption, both groups have wrapped at least once since the previous
flip (first conjunct: starting from a state where the wrap flags are not
both already set — an invariant of every run, second conjunct — a
`consume_from` changes the role exactly when both "wrapped since last
flip" conditions hold, both flags are cleared on a flip, and without a
flip the role is unchanged and the flags persist, accumulating the new
wrap); and with single-person groups and roles (A=weekday, B=weekend)
active from the start, the run `singleParams` flips the weekday role from
Group A to Group B right after each group's first assignment (third
conjunct). -/
theorem claim_C4_flip_policy :
    (∀ (p : ScheduleParams) (flag : String) (s : LoopState)
      (person gname : String) (s' : LoopState),
      ¬(s.a_wrapped_since_flip = true ∧ s.b_wrapped_since_flip = true) →
      consume_from p flag s = some (person, gname, s') →
      ((s'.a_handles_weekday ≠ s.a_handles_weekday ↔
        ((s.a_wrapped_since_flip = true ∨
          (flag = "A" ∧ wraps_next p.group_a s.idx_a = true)) ∧
         (s.b_wrapped_since_flip = true ∨
          (flag ≠ "A" ∧ wraps_next p.group_b s.idx_b = true)))) ∧
       (s'.a_handles_weekday ≠ s.a_handles_weekday →
         s'.a_wrapped_since_flip = false ∧ s'.b_wrapped_since_flip = false) ∧
       (s'.a_handles_weekday = s.a_handles_weekday →
         (s'.a_wrapped_since_flip = true ↔
           (s.a_wrapped_since_flip = true ∨
            (flag = "A" ∧ wraps_next p.group_a s.idx_a = true))) ∧
         (s'.b_wrapped_since_flip = true ↔
           (s.b_wrapped_since_flip = true ∨
            (flag ≠ "A" ∧ wraps_next p.group_b s.idx_b = true)))))) ∧
    (∀ (p : ScheduleParams) (skipSet : List Int) (s s' : LoopState),
      ¬(s.a_wrapped_since_flip = true ∧ s.b_wrapped_since_flip = true) →
      runStep p skipSet s = .ok s' →
      ¬(s'.a_wrapped_since_flip = true ∧ s'.b_wrapped_since_flip = true)) ∧
    (generate_293t_schedule singleParams = .ok singleRows ∧
      singleRows.map Record.AssignedGroup =
        ["Group B", "Group A", "Group A", "Group A", "Group B"]) := by
  refine ⟨?_, ?_, single_run_rows, rfl⟩
  · intro p flag s person gname s' hniv h
    unfold consume_from at h
    split at h
    · rename_i hfa
      split at h
      · cases h
      · rename_i per0 idx0 wrapped heq
        dsimp only at h
        cases h
        unfold next_person at heq
        split at heq
        · cases heq
        · rename_i per1 hget
          dsimp only at heq
          split at heq
          · rename_i hge
            cases heq
            have hw : wraps_next p.group_a s.idx_a = true := by
              simp [wraps_next, hge]
            cases hb : s.b_wrapped_since_flip <;>
              simp_all [maybe_flip_roles, hfa, hw, wraps_next]
          · rename_i hge
            cases heq
            have hw : wraps_next p.group_a s.idx_a = false := by
              simp only [wraps_next, decide_eq_false_iff_not]
              exact hge
            simp only [Bool.and_eq_true, not_and] at hniv
            cases ha : s.a_wrapped_since_flip <;>
              cases hb : s.b_wrapped_since_flip <;>
              simp_all [hfa, hw]
    · rename_i hfa
      split at h
      · cases h
      · rename_i per0 idx0 wrapped heq
        dsimp only at h
        cases h
        unfold next_person at heq
        split at heq
        · cases heq
        · rename_i per1 hget
          dsimp only at heq
          split at heq
          · rename_i hge
            cases heq
            have hw : wraps_next p.group_b s.idx_b = true := by
              simp [wraps_next, hge]
            cases ha : s.a_wrapped_since_flip <;>
              simp_all [maybe_flip_roles, hfa, hw, wraps_next]
          · rename_i hge
            cases heq
            have hw : wraps_next p.group_b s.idx_b = false := by
              simp only [wraps_next, decide_eq_false_iff_not]
              exact hge
            simp only [Bool.and_eq_true, not_and] at hniv
            cases ha : s.a_wrapped_since_flip <;>
              cases hb : s.b_wrapped_since_flip <;>
              simp_all [hfa, hw]
  · intro p skipSet s s' hniv hok0
    rcases runStep_ok_inv p _ s s' hok0 with ⟨_, rfl⟩ |
      ⟨hmem, per, g, s1, pass, hres, hpass, rfl⟩
    · exact hniv
    · exact resolve_slot_not_both p s per g s1 hniv hres

/-- The cursor bounds that make every list access of the loop body succeed:
both queue cursors are in range and the passage cursor is in range. -/
def good_state (p : ScheduleParams) (s : LoopState) : Prop :=
  s.idx_a < p.group_a.length ∧ s.idx_b < p.group_b.length ∧
    s.passage_idx < PASSAGE_CYCLE.length

theorem consume_from_total (p : ScheduleParams) (flag : String)
    (s : LoopState) (hgs : good_state p s) :
    ∃ person gname s', consume_from p flag s = some (person, gname, s') ∧
      good_state p s' := by
  obtain ⟨ha, hb, hp⟩ := hgs
  by_cases hfa : flag = "A"
  · obtain ⟨pa, hget⟩ : ∃ x, p.group_a.get? s.idx_a = some x :=
      ⟨_, List.get?_eq_get ha⟩
    unfold consume_from next_person
    rw [if_pos hfa, hget]
    dsimp only
    by_cases hge : s.idx_a + 1 ≥ p.group_a.length
    · rw [if_pos hge]
      simp only [eq_self_iff_true, if_true]
      refine ⟨pa, "Group A", _, rfl, ?_⟩
      have hlen : 0 < p.group_a.length := by omega
      refine ⟨?_, ?_, ?_⟩
      · rw [(maybe_flip_roles_frame _).2.1]
        exact hlen
      · rw [(maybe_flip_roles_frame _).2.2.1]
        exact hb
      · rw [(maybe_flip_roles_frame _).2.2.2.1]
        exact hp
    · rw [if_neg hge]
      simp only [Bool.false_eq_true, if_false]
      exact ⟨pa, "Group A", _, rfl, by simpa using (by omega :
        s.idx_a + 1 < p.group_a.length), hb, hp⟩
  · obtain ⟨pb, hget⟩ : ∃ x, p.group_b.get? s.idx_b = some x :=
      ⟨_, List.get?_eq_get hb⟩
    unfold consume_from next_person
    rw [if_neg hfa, hget]
    dsimp only
    by_cases hge : s.idx_b + 1 ≥ p.group_b.length
    · rw [if_pos hge]
      simp only [eq_self_iff_true, if_true]
      refine ⟨pb, "Group B", _, rfl, ?_⟩
      have hlen : 0 < p.group_b.length := by omega
      refine ⟨?_, ?_, ?_⟩
      · rw [(maybe_flip_roles_frame _).2.1]
        exact ha
      · rw [(maybe_flip_roles_frame _).2.2.1]
        exact hlen
      · rw [(maybe_flip_roles_frame _).2.2.2.1]
        exact hp
    · rw [if_neg hge]
      simp only [Bool.false_eq_true, if_false]
      exact ⟨pb, "Group B", _, rfl, ha, by simpa using (by omega :
        s.idx_b + 1 < p.group_b.length), hp⟩

theorem resolve_slot_total (p : ScheduleParams) (s : LoopState)
    (hgs : good_state p s) :
    ∃ person gname s1, resolve_slot p s = some (person, gname, s1) ∧
      good_state p s1 := by
  cases hL : slot_lookup (wp_get s.week_people (week_start_sunday s.current))
      (slot_of s.current) with
  | some pr => exact ⟨pr.1, pr.2, s, resolve_slot_cached p s pr hL, hgs⟩
  | none =>
    obtain ⟨per, g, s0, hcons, hgs0⟩ := consume_from_total p
      (match slot_of s.current with
        | .weekday => weekday_group_flag s.a_handles_weekday
        | _ => weekend_group_flag s.a_handles_weekday) s hgs
    cases hres0 : resolve_slot p s with
    | none =>
      exfalso
      unfold resolve_slot at hres0
      dsimp only at hres0
      rw [hL, hcons] at hres0
      cases hres0
    | some trip =>
      obtain ⟨per1, g1, s1⟩ := trip
      have hval := hres0
      unfold resolve_slot at hval
      dsimp only at hval
      rw [hL, hcons] at hval
      dsimp only at hval
      cases hval
      refine ⟨_, _, _, rfl, ?_⟩
      exact ⟨hgs0.1, hgs0.2.1, hgs0.2.2⟩

theorem runStep_total (p : ScheduleParams) (skipSet : List Int)
    (s : LoopState) (hgs : good_state p s) :
    ∃ s', runStep p skipSet s = .ok s' ∧ good_state p s' := by
  by_cases hmem : s.current ∈ skipSet
  · refine ⟨{ s with current := s.current + p.interval_hours }, ?_, ?_⟩
    · unfold runStep
      rw [if_pos hmem]
    · exact ⟨hgs.1, hgs.2.1, hgs.2.2⟩
  · obtain ⟨per, g, s1, hres, h1, h2, h3⟩ := resolve_slot_total p s hgs
    obtain ⟨pass, hpass⟩ : ∃ x, PASSAGE_CYCLE.get? s1.passage_idx = some x :=
      ⟨_, List.get?_eq_get h3⟩
    cases hrun : runStep p skipSet s with
    | error e =>
      exfalso
      unfold runStep at hrun
      rw [if_neg hmem, hres] at hrun
      dsimp only at hrun
      rw [hpass] at hrun
      dsimp only at hrun
      by_cases hn : p.end_date = none
      · rw [if_pos hn] at hrun
        cases hrun
      · rw [if_neg hn] at hrun
        cases hrun
    | ok s2 =>
      have hval := hrun
      unfold runStep at hval
      rw [if_neg hmem, hres] at hval
      dsimp only at hval
      rw [hpass] at hval
      dsimp only at hval
      by_cases hn : p.end_date = none
      · rw [if_pos hn] at hval
        cases hval
        exact ⟨_, rfl, h1, h2, Nat.mod_lt _ (by decide)⟩
      · rw [if_neg hn] at hval
        cases hval
        exact ⟨_, rfl, h1, h2, Nat.mod_lt _ (by decide)⟩

/-- C8: for every configuration that passes validation — non-empty groups,
exactly one bound, valid distinct start roles, a known start label, a
positive cadence, and a positive event count when that bound is used — the
generation loop terminates and returns a complete row list with no runtime
error, for any start date, end date, event count and (finite) skip list. -/
theorem claim_C8_no_runtime_error (p : ScheduleParams)
    (hga : p.group_a ≠ []) (hgb : p.group_b ≠ [])
    (hxor : ¬((p.end_date = none) ↔ (p.num_events = none)))
    (hr1 : p.start_roles.1 = "weekday" ∨ p.start_roles.1 = "weekend")
    (hr2 : p.start_roles.2 = "weekday" ∨ p.start_roles.2 = "weekend")
    (hdup : p.start_roles.1 ≠ p.start_roles.2)
    (hlbl : p.start_passage_label ∈ PASSAGE_CYCLE)
    (hpos : 0 < p.interval_hours)
    (hnum : ∀ n, p.num_events = some n → 0 < n) :
    ∃ rows, generate_293t_schedule p = .ok rows := by
  have hinit : good_state p (init_state p) :=
    ⟨List.length_pos.mpr hga, List.length_pos.mpr hgb,
      List.indexOf_lt_length.mpr hlbl⟩
  unfold generate_293t_schedule
  rw [if_neg hxor, if_neg hga, if_neg hgb,
    if_neg (by push_neg; exact ⟨hr1, hr2⟩), if_neg hdup,
    if_neg (not_not_intro hlbl)]
  split
  · rename_i ed hend
    exact date_loop_total p (skip_normalized p) (normalize ed)
      (good_state p) (fun s hgs _ _ => runStep_total p _ s hgs) hpos
      (init_state p) hinit
  · rename_i hend
    cases hnume : p.num_events with
    | none => exact absurd (by rw [hend, hnume]) hxor
    | some n =>
      dsimp only
      exact event_loop_total p (skip_normalized p) hend (good_state p)
        (fun s hgs _ _ => runStep_total p _ s hgs) hpos
        { init_state p with events_left := n }
        ⟨hinit.1, hinit.2.1, hinit.2.2⟩

/-- C5 counterexample: with a 36-hour cadence (`cexParams`), the candidate
instant 36 hours after the Monday start falls on the Tuesday listed in
`skip_dates`, yet the timestamp-based `current in skip` test does not match
it, so a record dated on the skipped Tuesday is emitted.  This refutes the
claim as stated for cadences that are not a multiple of 24 hours. -/
theorem claim_C5_counterexample :
    ¬ (∀ rows, generate_293t_schedule cexParams = .ok rows →
        ∀ r ∈ rows, r.Date ∉ skip_normalized cexParams) := by
  intro hclaim
  have h := hclaim cexRows cex_run_rows
    { Passage := "P12", Day := "Tuesday", Date := 24,
      IsWeekend := "Weekday", AssignedGroup := "Group A", Person := "a" }
    (by decide)
  exact h (by decide)

/-- C5 amended: for every configuration whose cadence is a multiple of 24
hours (so that all candidate instants stay at midnight, as the default 48
does), no emitted record's `Date` is a normalized skip date.  (For other
cadences the counterexample above shows a candidate carrying a time-of-day
is compared as a full timestamp and can land on a skipped date.) -/
theorem claim_C5_skip_dates_excluded (p : ScheduleParams)
    (hdvd : (24 : Int) ∣ p.interval_hours)
    (rows : List Record) (hok : generate_293t_schedule p = .ok rows) :
    ∀ r ∈ rows, r.Date ∉ skip_normalized p := by
  obtain ⟨sf, ⟨_, hall⟩, hrows⟩ := generate_ok_inv p rows hok
    (fun s => (24 : Int) ∣ s.current ∧
      ∀ r ∈ s.rows, r.Date ∉ skip_normalized p)
    (by
      intro s s' hinv _ hok0
      obtain ⟨hdc, hall⟩ := hinv
      rcases runStep_ok_inv p _ s s' hok0 with ⟨_, rfl⟩ |
        ⟨hmem, per, g, s1, pass, hres, hpass, rfl⟩
      · exact ⟨dvd_add hdc hdvd, hall⟩
      · obtain ⟨hcur1, _, hrw, _⟩ := resolve_slot_frame p s per g s1 hres
        constructor
        · show (24 : Int) ∣ s1.current + p.interval_hours
          rw [hcur1]
          exact dvd_add hdc hdvd
        · intro r hr
          simp only [hrw, List.mem_append, List.mem_cons,
            List.not_mem_nil, or_false] at hr
          rcases hr with hr | rfl
          · exact hall r hr
          · show normalize s.current ∉ skip_normalized p
            rw [normalize_of_dvd _ hdc]
            exact hmem)
    (by
      refine fun n => ⟨⟨p.start_date / 24, rfl⟩, ?_⟩
      intro r hr
      simp only [init_state] at hr
      cases hr)
  rw [← hrows]
  exact hall

/-! ### The ICS emitter `build_ics`

`build_ics` consumes the generator's output table.  A row's `Date` column
is the ISO string of a calendar date; `datetime.fromisoformat` parses it
back, so the `IcsRow` structure carries the parsed Gregorian date directly
(ISO formatting and parsing are mutually inverse on valid dates).
`datetime.combine(date, time(event_hour, 0, 0))` and the addition of
`timedelta(minutes=duration)` are modelled by a (date, minutes-of-day)
pair with Gregorian day carry; the source never produces nonzero seconds,
and `time(...)` validates `0 ≤ event_hour ≤ 23`, which the theorem takes
as a hypothesis. -/

/-- A Gregorian calendar date. -/
structure YMD where
  year : Nat
  month : Nat
  day : Nat
deriving DecidableEq

/-- Gregorian leap-year rule. -/
def isLeap (y : Nat) : Bool :=
  (y % 4 == 0 && y % 100 != 0) || y % 400 == 0

/-- Days in a month. -/
def daysInMonth (y m : Nat) : Nat :=
  if m = 2 then (if isLeap y then 29 else 28)
  else if m = 4 ∨ m = 6 ∨ m = 9 ∨ m = 11 then 30
  else 31

/-- The next calendar day. -/
def next_day (d : YMD) : YMD :=
  if d.day < daysInMonth d.year d.month then ⟨d.year, d.month, d.day + 1⟩
  else if d.month < 12 then ⟨d.year, d.month + 1, 1⟩
  else ⟨d.year + 1, 1, 1⟩

/-- Calendar-date addition of days (the day carry of `timedelta`). -/
def addDays (d : YMD) (n : Nat) : YMD := next_day^[n] d

/-- Zero-padded two-digit field of `strftime`. -/
def pad2 (n : Nat) : String := if n < 10 then "0" ++ toString n else toString n

/-- Zero-padded four-digit year field of `strftime("%Y")`. -/
def pad4 (n : Nat) : String :=
  if n < 10 then "000" ++ toString n
  else if n < 100 then "00" ++ toString n
  else if n < 1000 then "0" ++ toString n
  else toString n

/-- `date.isoformat()`, the `Date` column format. -/
def isoDate (d : YMD) : String :=
  pad4 d.year ++ "-" ++ pad2 d.month ++ "-" ++ pad2 d.day

/-- `strftime("%Y%m%dT%H%M%S")` of a naive datetime given as a date and
minutes-of-day (`build_ics` only ever builds datetimes with zero
seconds). -/
def fmtDT (d : YMD) (minutes : Nat) : String :=
  pad4 d.year ++ pad2 d.month ++ pad2 d.day ++ "T" ++
    pad2 (minutes / 60) ++ pad2 (minutes % 60) ++ "00"

/-- One row of the DataFrame as consumed by `build_ics` (the columns it
reads: `Date` — parsed, see above — `IsWeekend`, `AssignedGroup`,
`Person`). -/
structure IcsRow where
  date : YMD
  isWeekend : String
  assignedGroup : String
  person : String

/-- `"\n".join(lines)`. -/
def joinLines : List String → String
  | [] => ""
  | [x] => x
  | x :: xs => x ++ "\n" ++ joinLines xs

/-- `build_ics` from the source: the calendar header, one `VEVENT` block
per row appended in order by the `for` loop, and the closing line, joined
with newlines.  (The `tzid` parameter of the source is unused by its body
and omitted.) -/
def build_ics (df : List IcsRow) (event_hour : Nat := 9)
    (duration_minutes : Nat := 60) : String :=
  let header := ["BEGIN:VCALENDAR", "VERSION:2.0",
    "PRODID:-//293T Scheduler//EN", "CALSCALE:GREGORIAN"]
  let lines := df.foldl (fun lines row =>
    let startMin := event_hour * 60
    let endTotal := startMin + duration_minutes
    let dtstart := fmtDT row.date startMin
    let dtend := fmtDT (addDays row.date (endTotal / 1440)) (endTotal % 1440)
    let uid := "293t-" ++ isoDate row.date ++ "-" ++
      (row.person.replace " " "") ++ "@scheduler"
    let summary := "293T Split – " ++ row.person ++ " (" ++
      row.assignedGroup ++ ")"
    let description := "Split cadence: " ++ row.isWeekend
    lines ++ ["BEGIN:VEVENT", "UID:" ++ uid, "DTSTART:" ++ dtstart,
      "DTEND:" ++ dtend, "SUMMARY:" ++ summary,
      "DESCRIPTION:" ++ description, "END:VEVENT"]) header
  joinLines (lines ++ ["END:VCALENDAR"])

theorem foldl_append_bind {α β : Type} (f : α → List β) :
    ∀ (df : List α) (init : List β),
      df.foldl (fun lines row => lines ++ f row) init = init ++ df.bind f := by
  intro df
  induction df with
  | nil => intro init; simp
  | cons r t ih =>
    intro init
    simp only [List.foldl_cons, List.bind_eq_bind, List.cons_bind]
    rw [ih, List.append_assoc]

theorem joinLines_head (a : String) (l : List String) :
    ∃ rest, joinLines (a :: l) = a ++ rest := by
  cases l with
  | nil => exact ⟨"", by simp [joinLines]⟩
  | cons b t =>
    refine ⟨"\n" ++ joinLines (b :: t), ?_⟩
    show a ++ "\n" ++ joinLines (b :: t) = _
    rw [String.append_assoc]

theorem joinLines_last (a : String) (l : List String) :
    ∃ pre, joinLines (l ++ [a]) = pre ++ a := by
  induction l with
  | nil => exact ⟨"", by simp [joinLines]⟩
  | cons b t ih =>
    obtain ⟨pre, hpre⟩ := ih
    cases ht : t ++ [a] with
    | nil => simp at ht
    | cons c u =>
      refine ⟨b ++ "\n" ++ pre, ?_⟩
      show joinLines (b :: (t ++ [a])) = b ++ "\n" ++ pre ++ a
      rw [ht]
      show b ++ "\n" ++ joinLines (c :: u) = b ++ "\n" ++ pre ++ a
      rw [← ht, hpre, String.append_assoc, String.append_assoc,
        String.append_assoc]

/-- C9: for every input table and every valid start hour and duration,
`build_ics` produces the `VCALENDAR` wrapper with version 2.0 and
Gregorian scale, one `VEVENT` block per record in order whose `DTSTART` is
the record's date at the start hour, whose `DTEND` is `DTSTART` plus the
duration (with day carry), whose `SUMMARY` is the title with the person
and group, whose `DESCRIPTION` is the cadence note, and whose `UID` is
derived from the ISO date and the person's name with spaces stripped; the
text starts with `BEGIN:VCALENDAR` and ends with `END:VCALENDAR`. -/
theorem claim_C9_build_ics (df : List IcsRow) (h dur : Nat) (hh : h ≤ 23) :
    build_ics df h dur =
      joinLines
        (["BEGIN:VCALENDAR", "VERSION:2.0", "PRODID:-//293T Scheduler//EN",
          "CALSCALE:GREGORIAN"] ++
        df.bind (fun r =>
          ["BEGIN:VEVENT",
           "UID:" ++ ("293t-" ++ isoDate r.date ++ "-" ++
             (r.person.replace " " "") ++ "@scheduler"),
           "DTSTART:" ++ fmtDT r.date (h * 60),
           "DTEND:" ++ fmtDT (addDays r.date ((h * 60 + dur) / 1440))
             ((h * 60 + dur) % 1440),
           "SUMMARY:" ++ ("293T Split – " ++ r.person ++ " (" ++
             r.assignedGroup ++ ")"),
           "DESCRIPTION:" ++ ("Split cadence: " ++ r.isWeekend),
           "END:VEVENT"]) ++
        ["END:VCALENDAR"]) ∧
    (∃ rest, build_ics df h dur = "BEGIN:VCALENDAR" ++ rest) ∧
    (∃ pre, build_ics df h dur = pre ++ "END:VCALENDAR") := by
  have hmain : build_ics df h dur =
      joinLines
        (["BEGIN:VCALENDAR", "VERSION:2.0", "PRODID:-//293T Scheduler//EN",
          "CALSCALE:GREGORIAN"] ++
        df.bind (fun r =>
          ["BEGIN:VEVENT",
           "UID:" ++ ("293t-" ++ isoDate r.date ++ "-" ++
             (r.person.replace " " "") ++ "@scheduler"),
           "DTSTART:" ++ fmtDT r.date (h * 60),
           "DTEND:" ++ fmtDT (addDays r.date ((h * 60 + dur) / 1440))
             ((h * 60 + dur) % 1440),
           "SUMMARY:" ++ ("293T Split – " ++ r.person ++ " (" ++
             r.assignedGroup ++ ")"),
           "DESCRIPTION:" ++ ("Split cadence: " ++ r.isWeekend),
           "END:VEVENT"]) ++
        ["END:VCALENDAR"]) := by
    unfold build_ics
    dsimp only
    rw [foldl_append_bind]
  refine ⟨hmain, ?_, ?_⟩
  · rw [hmain]
    exact joinLines_head _ _
  · rw [hmain]
    exact joinLines_last _ _

/-! ### Concrete witnesses for the claim theorems -/

/-- A loop state sitting on the skipped Tuesday of `dateParams`. -/
def c7s : LoopState where
  current := 192
  a_handles_weekday := true
  idx_a := 0
  idx_b := 0
  a_wrapped_since_flip := false
  b_wrapped_since_flip := false
  passage_idx := 0
  week_people := []
  rows := []
  events_left := 0

theorem claim_C7_skip_pure_advance_witness :
    ((192 : Int) ∈ [(192 : Int)]) ∧
    runStep dateParams [192] c7s =
      .ok { c7s with current := c7s.current + dateParams.interval_hours } :=
  ⟨by decide, claim_C7_skip_pure_advance dateParams [192] c7s (by decide)⟩

theorem claim_C6_validation_error_witness :
    ∃ e, generate_293t_schedule { singleParams with group_a := [] } =
      .error e :=
  claim_C6_validation_error { singleParams with group_a := [] }
    (Or.inr (Or.inl rfl))

theorem claim_C3_passage_sequence_witness :
    1 < singleRows.length ∧
    (singleRows.map Record.Passage).getD 1 "" =
      PASSAGE_CYCLE.getD
        ((PASSAGE_CYCLE.indexOf singleParams.start_passage_label + 1) %
          PASSAGE_CYCLE.length) "" :=
  ⟨by decide,
    claim_C3_passage_sequence singleParams singleRows single_run_rows 1
      (by decide)⟩

theorem claim_C1_emitted_count_witness :
    (singleRows.length : Int) = 5 ∧
    dateRows.length = ((candidate_instants (normalize dateParams.start_date)
      (normalize 240) dateParams.interval_hours).filter
        (fun t => decide (t ∉ skip_normalized dateParams))).length :=
  ⟨claim_C1_emitted_count.1 singleParams 5 singleRows rfl (by decide)
      single_run_rows,
    claim_C1_emitted_count.2 dateParams 240 dateRows rfl date_run_rows⟩

/-- The first record of `singleRows` (Sunday 144). -/
def r144 : Record where
  Passage := "P25, Thaw P11"
  Day := "Sunday"
  Date := 144
  IsWeekend := "Weekend"
  AssignedGroup := "Group B"
  Person := "B1"

/-- The second record of `singleRows` (Tuesday 192). -/
def r192 : Record where
  Passage := "P12"
  Day := "Tuesday"
  Date := 192
  IsWeekend := "Weekday"
  AssignedGroup := "Group A"
  Person := "A1"

/-- The third record of `singleRows` (Thursday 240). -/
def r240 : Record where
  Passage := "P13"
  Day := "Thursday"
  Date := 240
  IsWeekend := "Weekday"
  AssignedGroup := "Group A"
  Person := "A1"

theorem claim_C10_person_from_group_witness :
    (r144.AssignedGroup = "Group A" ∧ r144.Person ∈ singleParams.group_a) ∨
    (r144.AssignedGroup = "Group B" ∧ r144.Person ∈ singleParams.group_b) :=
  claim_C10_person_from_group singleParams singleRows single_run_rows r144
    (by decide)

/-- A loop state of the `dateParams` run whose current Sunday slot is
already resolved in the week bucket. -/
def c2s : LoopState where
  current := 144
  a_handles_weekday := true
  idx_a := 0
  idx_b := 1
  a_wrapped_since_flip := false
  b_wrapped_since_flip := false
  passage_idx := 1
  week_people := [((144 : Int),
    { sunday := some ("B1", "Group B"), weekday := none, saturday := none })]
  rows := []
  events_left := 0

theorem claim_C2_weekly_consistency_witness :
    (r192.Person = r240.Person ∧
      r192.AssignedGroup = r240.AssignedGroup) ∧
    resolve_slot dateParams c2s = some ("B1", "Group B", c2s) :=
  ⟨claim_C2_weekly_consistency.1 singleParams singleRows single_run_rows
      r192 (by decide) r240 (by decide) (by decide) (by decide),
    claim_C2_weekly_consistency.2 dateParams c2s ("B1", "Group B")
      (by decide)⟩

/-- The initial state of the `singleParams` run. -/
def c4s : LoopState where
  current := 144
  a_handles_weekday := true
  idx_a := 0
  idx_b := 0
  a_wrapped_since_flip := false
  b_wrapped_since_flip := false
  passage_idx := 0
  week_people := []
  rows := []
  events_left := 5

/-- `c4s` after Group B's first (wrapping) consumption: flag set, no flip. -/
def c4s0 : LoopState :=
  { c4s with idx_b := 0, b_wrapped_since_flip := true }

theorem claim_C4_flip_policy_witness :
    (c4s0.a_handles_weekday ≠ c4s.a_handles_weekday ↔
      ((c4s.a_wrapped_since_flip = true ∨
        ("B" = "A" ∧ wraps_next singleParams.group_a c4s.idx_a = true)) ∧
       (c4s.b_wrapped_since_flip = true ∨
        ("B" ≠ "A" ∧ wraps_next singleParams.group_b c4s.idx_b = true)))) ∧
    (c4s0.a_handles_weekday ≠ c4s.a_handles_weekday →
      c4s0.a_wrapped_since_flip = false ∧
      c4s0.b_wrapped_since_flip = false) ∧
    (c4s0.a_handles_weekday = c4s.a_handles_weekday →
      (c4s0.a_wrapped_since_flip = true ↔
        (c4s.a_wrapped_since_flip = true ∨
          ("B" = "A" ∧ wraps_next singleParams.group_a c4s.idx_a = true))) ∧
      (c4s0.b_wrapped_since_flip = true ↔
        (c4s.b_wrapped_since_flip = true ∨
          ("B" ≠ "A" ∧ wraps_next singleParams.group_b c4s.idx_b = true)))) :=
  claim_C4_flip_policy.1 singleParams "B" c4s "B1" "Group B" c4s0
    (by decide) (by decide)

theorem claim_C8_no_runtime_error_witness :
    ∃ rows, generate_293t_schedule singleParams = .ok rows :=
  claim_C8_no_runtime_error singleParams (by decide) (by decide) (by decide)
    (by decide) (by decide) (by decide) (by decide) (by decide)
    (by
      intro n hn
      simp only [singleParams, Option.some.injEq] at hn
      omega)

theorem claim_C5_skip_dates_excluded_witness :
    ((24 : Int) ∣ dateParams.interval_hours) ∧
    ∀ r ∈ dateRows, r.Date ∉ skip_normalized dateParams :=
  ⟨⟨2, rfl⟩, claim_C5_skip_dates_excluded dateParams ⟨2, rfl⟩ dateRows
    date_run_rows⟩

/-- A concrete row for the ICS witness (date 2026-01-05). -/
def c9row : IcsRow where
  date := ⟨2026, 1, 5⟩
  isWeekend := "Weekday"
  assignedGroup := "Group A"
  person := "Alice A"

theorem claim_C9_build_ics_witness :
    (9 ≤ 23) ∧
    (build_ics [c9row] 9 60 =
      joinLines
        (["BEGIN:VCALENDAR", "VERSION:2.0", "PRODID:-//293T Scheduler//EN",
          "CALSCALE:GREGORIAN"] ++
        [c9row].bind (fun r =>
          ["BEGIN:VEVENT",
           "UID:" ++ ("293t-" ++ isoDate r.date ++ "-" ++
             (r.person.replace " " "") ++ "@scheduler"),
           "DTSTART:" ++ fmtDT r.date (9 * 60),
           "DTEND:" ++ fmtDT (addDays r.date ((9 * 60 + 60) / 1440))
             ((9 * 60 + 60) % 1440),
           "SUMMARY:" ++ ("293T Split – " ++ r.person ++ " (" ++
             r.assignedGroup ++ ")"),
           "DESCRIPTION:" ++ ("Split cadence: " ++ r.isWeekend),
           "END:VEVENT"]) ++
        ["END:VCALENDAR"]) ∧
      (∃ rest, build_ics [c9row] 9 60 = "BEGIN:VCALENDAR" ++ rest) ∧
      (∃ pre, build_ics [c9row] 9 60 = pre ++ "END:VCALENDAR")) :=
  ⟨by decide, claim_C9_build_ics [c9row] 9 60 (by decide)⟩

end Sched
